import Mathlib

/-!
# esphome-udpserver: a shallow embedding of `components/udpserver`

The development embeds `udpserver_component.h` and `udpserver_component.cpp`:

* byte strings (`std::string`, `const char*`) and the `std::string` members the
  component calls (`find`, `rfind`, `compare`, `operator==`, `empty`, `length`);
* `OnStringDataTrigger::matches_filter`;
* `UdpserverComponent::is_ip_allowed`, `process_` and `loop`;
* `UDPContext` and `UDPContext::send_response`.

The socket (`WiFiUDP`), the network readiness query and the automations attached
to a trigger are collaborators outside the component; they are parameters of the
model.  Every call the component makes on the socket is recorded in a call log.
-/

namespace esphome
namespace udpserver

/-! ## Bytes and strings -/

/-- One `char` / `uint8_t`. -/
abbrev Byte := Fin 256

/-- A `std::string`: a sequence of bytes with an explicit length; it may hold zero bytes. -/
abbrev StdString := List Byte

/-- The characters of a `const char*`: the memory the pointer designates.  The C string it
denotes ends before the first zero byte (see `std_string`). -/
abbrev CString := List Byte

/-- The bytes of an ASCII literal of the source text. -/
def ascii (s : String) : StdString :=
  s.toList.map (fun ch => Fin.ofNat ch.toNat)

/-- The constructor `std::string(const char*)`: the bytes before the first zero byte. -/
def std_string (p : CString) : StdString :=
  p.takeWhile (fun b => decide (b ≠ 0))

/-- The constructor `std::string(const char*, size_t)`: exactly the first `len` bytes,
zero bytes included. -/
def std_string_n (buf : List Byte) (len : Nat) : StdString :=
  buf.take len

/-- `static const size_t MAX_PACKET_SIZE = 1400;` -/
def MAX_PACKET_SIZE : Nat := 1400

/-- The number of values of `size_t` (32 bits on the ESP targets). -/
def SIZE_MODULUS : Nat := 2 ^ 32

/-- Subtraction of two `size_t` values.  The operands are string lengths, which are below
`SIZE_MODULUS`; for such operands this is `(a - b) mod SIZE_MODULUS`: the difference when
`b ≤ a`, and the wrapped value `a + SIZE_MODULUS - b` otherwise. -/
def size_sub (a b : Nat) : Nat :=
  if b ≤ a then a - b else a + SIZE_MODULUS - b

/-- Whether `str` occurs in `s` at index `xpos`: `xpos + str.size() <= s.size()` and the
characters agree. -/
def match_at (s str : StdString) (xpos : Nat) : Bool :=
  decide (xpos + str.length ≤ s.length) && decide ((s.drop xpos).take str.length = str)

/-- `std::string::find(str, pos)`: the lowest `xpos` with `pos <= xpos` at which `str`
occurs in `s`; `none` stands for `std::string::npos`. -/
def find (s str : StdString) (pos : Nat) : Option Nat :=
  (List.range (s.length + 1)).find? (fun xpos => decide (pos ≤ xpos) && match_at s str xpos)

/-- `std::string::rfind(str, pos)`: the highest `xpos` with `xpos <= pos` at which `str`
occurs in `s`; `none` stands for `std::string::npos`. -/
def rfind (s str : StdString) (pos : Nat) : Option Nat :=
  (List.range (s.length + 1)).reverse.find?
    (fun xpos => decide (xpos ≤ pos) && match_at s str xpos)

/-- `std::char_traits<char>::compare` followed by the comparison of the lengths: the
lexicographic three-way comparison of two byte strings (bytes compared as unsigned). -/
def traits_compare : List Byte → List Byte → Int
  | [], [] => 0
  | [], _ :: _ => -1
  | _ :: _, [] => 1
  | a :: as, b :: bs =>
    if a < b then -1 else if b < a then 1 else traits_compare as bs

/-- `std::string::compare(pos1, n1, str)`: compares the substring of `s` that starts at
`pos1` and has `min(n1, size() - pos1)` characters with `str`.  The member throws
`std::out_of_range` exactly when `pos1 > size()`; a call site has to establish
`pos1 ≤ size()`, which the argument `_h` records. -/
def compare (s : StdString) (pos1 n1 : Nat) (_h : pos1 ≤ s.length) (str : StdString) : Int :=
  traits_compare ((s.drop pos1).take (min n1 (s.length - pos1))) str

/-! ## `OnStringDataTrigger` -/

/-- `UDPContext`: the reply capability handed to a trigger.  `udp_` is the socket pointer
(`none` is the null pointer, `some ()` designates the component's socket `udp`),
`remote_ip_` the characters of the sender address and `remote_port_` the sender port. -/
structure UDPContext where
  udp_ : Option Unit
  remote_ip_ : CString
  remote_port_ : Nat
  deriving DecidableEq, Repr

/-- `UDPContext::get_remote_ip`. -/
def UDPContext.get_remote_ip (ctx : UDPContext) : CString := ctx.remote_ip_

/-- `UDPContext::get_remote_port`. -/
def UDPContext.get_remote_port (ctx : UDPContext) : Nat := ctx.remote_port_

/-- What an automation attached to a trigger does with the reply context it receives: a
sequence of `send_response` calls on that context, each continuation seeing the result of
the call before it.  Effects of an automation outside the server are not modelled. -/
inductive Automation where
  | done : Automation
  | send_response (data : StdString) (next : Bool → Automation) : Automation

/-- `OnStringDataTrigger`: the two filter members and the automation that
`Trigger<std::string, UDPContext>::trigger` runs. -/
structure OnStringDataTrigger where
  text_filter_ : StdString
  filter_mode_ : StdString
  trigger : StdString → UDPContext → Automation

/-- `OnStringDataTrigger::matches_filter`. -/
def OnStringDataTrigger.matches_filter (t : OnStringDataTrigger) (data : StdString) : Bool :=
  if t.filter_mode_ = ascii "none" ∨ t.text_filter_ = [] then
    true
  else if t.filter_mode_ = ascii "contains" then
    (find data t.text_filter_ 0).isSome
  else if t.filter_mode_ = ascii "starts_with" then
    decide (rfind data t.text_filter_ 0 = some 0)
  else if t.filter_mode_ = ascii "ends_with" then
    if h : data.length ≥ t.text_filter_.length then
      decide (compare data (size_sub data.length t.text_filter_.length) t.text_filter_.length
        (by unfold size_sub; rw [if_pos h]; exact Nat.sub_le _ _) t.text_filter_ = 0)
    else
      false
  else if t.filter_mode_ = ascii "equals" then
    decide (data = t.text_filter_)
  else
    true


/-! ## The socket and the call log -/

/-- An `IPAddress`: four octets, read with `operator[]`. -/
structure IPAddress where
  o0 : Byte
  o1 : Byte
  o2 : Byte
  o3 : Byte
  deriving DecidableEq, Repr

/-- The contents of `uint8_t buffer[MAX_PACKET_SIZE]`. -/
abbrev Buffer := { l : List Byte // l.length = MAX_PACKET_SIZE }

/-- The `WiFiUDP` socket, a collaborator outside the component, acting on a state `ω` of the
outside world.  `begin`, `beginPacket` and `endPacket` report success as a boolean (the
source tests their integer result against zero); `read n` returns the integer result and the
contents of the caller's buffer after the call. -/
structure WiFiUDP (ω : Type) where
  begin : Nat → ω → Bool × ω
  parsePacket : ω → Int × ω
  read : Nat → ω → (Int × Buffer) × ω
  remoteIP : ω → IPAddress
  remotePort : ω → Nat
  beginPacket : CString → Nat → ω → Bool × ω
  write : StdString → ω → ω
  endPacket : ω → Bool × ω

/-- One entry of the call log: a call made by the component (or by a reply context) on a
collaborator or on one of its own members, with the arguments and the result; `store index`
records the store `buffer[index] = '\0'` into the receive buffer. -/
inductive Call where
  | is_connected (result : Bool)
  | begin (port : Nat) (result : Bool)
  | mark_failed
  | parsePacket (result : Int)
  | read (requested : Nat) (result : Int) (buffer : List Byte)
  | store (index : Nat)
  | is_ip_allowed (ip : CString) (result : Bool)
  | trigger (index : Nat) (data : StdString) (ctx : UDPContext)
  | beginPacket (host : CString) (port : Nat) (result : Bool)
  | write (data : StdString)
  | endPacket (result : Bool)
  deriving DecidableEq, Repr

/-- Whether a log entry is the invocation of a trigger. -/
def Call.is_trigger : Call → Bool
  | .trigger _ _ _ => true
  | _ => false

/-- Whether a log entry is a transmission call (`beginPacket`, `write`, `endPacket`). -/
def Call.is_send : Call → Bool
  | .beginPacket _ _ _ => true
  | .write _ => true
  | .endPacket _ => true
  | _ => false

/-- Whether a log entry is a bind attempt (`udp.begin`). -/
def Call.is_begin : Call → Bool
  | .begin _ _ => true
  | _ => false

/-- Whether a log entry is a receive call (`parsePacket`, `read`). -/
def Call.is_receive : Call → Bool
  | .parsePacket _ => true
  | .read _ _ _ => true
  | _ => false

/-- The trigger invocations of a log, in order: index of the trigger in `string_triggers_`
and the text it was given. -/
def invocations (log : List Call) : List (Nat × StdString) :=
  log.filterMap (fun e => match e with
    | .trigger i data _ => some (i, data)
    | _ => none)

/-- The `read` calls of a log, in order: number of bytes requested and result. -/
def reads (log : List Call) : List (Nat × Int) :=
  log.filterMap (fun e => match e with
    | .read n r _ => some (n, r)
    | _ => none)

/-- The stores `buffer[index] = '\0'` of a log, in order: the index of each. -/
def stores (log : List Call) : List Nat :=
  log.filterMap (fun e => match e with
    | .store index => some index
    | _ => none)

/-! ## `UDPContext::send_response` and automations -/

/-- `UDPContext::send_response`: result, new state of the world and the calls made. -/
def UDPContext.send_response {ω : Type} (udp : WiFiUDP ω) (ctx : UDPContext)
    (data : StdString) (w : ω) : Bool × ω × List Call :=
  match ctx.udp_ with
  | none => (false, w, [])
  | some _ =>
    match udp.beginPacket ctx.remote_ip_ ctx.remote_port_ w with
    | (false, w1) => (false, w1, [Call.beginPacket ctx.remote_ip_ ctx.remote_port_ false])
    | (true, w1) =>
      let w2 := udp.write data w1
      let r := udp.endPacket w2
      (r.1, r.2, [Call.beginPacket ctx.remote_ip_ ctx.remote_port_ true, Call.write data,
        Call.endPacket r.1])

/-- Runs an automation with the reply context it was given. -/
def Automation.run {ω : Type} (udp : WiFiUDP ω) (ctx : UDPContext) :
    Automation → ω → ω × List Call
  | .done, w => (w, [])
  | .send_response data next, w =>
    let r := ctx.send_response udp data w
    let r2 := (next r.1).run udp ctx r.2.1
    (r2.1, r.2.2 ++ r2.2)

/-! ## `UdpserverComponent` -/

/-- The members of `UdpserverComponent` (the socket `udp` lives in the outside world);
`failed_` is the status that `Component::mark_failed` sets. -/
structure UdpserverComponent where
  port_ : Nat
  string_triggers_ : List OnStringDataTrigger
  allowed_ips_ : List StdString
  allow_all_ips_ : Bool
  udp_initialized_ : Bool
  failed_ : Bool

/-- `UdpserverComponent() = default` with the member initialisers of the header. -/
def UdpserverComponent.default : UdpserverComponent :=
  ⟨8888, [], [], true, false, false⟩

/-- `set_listen_port`; the parameter is a `uint16_t`. -/
def UdpserverComponent.set_listen_port (c : UdpserverComponent) (port : Nat) :
    UdpserverComponent :=
  { c with port_ := port % 2 ^ 16 }

/-- `add_string_trigger`: `push_back` on `string_triggers_`. -/
def UdpserverComponent.add_string_trigger (c : UdpserverComponent)
    (trigger : OnStringDataTrigger) : UdpserverComponent :=
  { c with string_triggers_ := c.string_triggers_ ++ [trigger] }

/-- `add_allowed_ip`: `push_back` on `allowed_ips_`. -/
def UdpserverComponent.add_allowed_ip (c : UdpserverComponent) (ip : StdString) :
    UdpserverComponent :=
  { c with allowed_ips_ := c.allowed_ips_ ++ [ip] }

/-- `set_allow_all_ips`. -/
def UdpserverComponent.set_allow_all_ips (c : UdpserverComponent) (allow : Bool) :
    UdpserverComponent :=
  { c with allow_all_ips_ := allow }

/-- `Component::mark_failed`. -/
def UdpserverComponent.mark_failed (c : UdpserverComponent) : UdpserverComponent :=
  { c with failed_ := true }

/-- The `for` loop of `is_ip_allowed` over `allowed_ips_`. -/
def is_ip_allowed_scan (ip_str : StdString) : List StdString → Bool
  | [] => false
  | allowed_ip :: rest =>
    if ip_str = allowed_ip then true else is_ip_allowed_scan ip_str rest

/-- `UdpserverComponent::is_ip_allowed`. -/
def UdpserverComponent.is_ip_allowed (c : UdpserverComponent) (ip : CString) : Bool :=
  if c.allow_all_ips_ = true ∨ c.allowed_ips_.isEmpty = true then
    true
  else
    let ip_str := std_string ip
    is_ip_allowed_scan ip_str c.allowed_ips_

/-- The `for` loop of `process_` over `string_triggers_`; `index` is the position of the
head of the remaining list in `string_triggers_`. -/
def process_triggers {ω : Type} (udp : WiFiUDP ω) (data_str : StdString) (udp_ctx : UDPContext) :
    Nat → List OnStringDataTrigger → ω → ω × List Call
  | _, [], w => (w, [])
  | index, trigger :: rest, w =>
    if trigger.matches_filter data_str = true then
      let r := (trigger.trigger data_str udp_ctx).run udp udp_ctx w
      let r2 := process_triggers udp data_str udp_ctx (index + 1) rest r.1
      (r2.1, Call.trigger index data_str udp_ctx :: (r.2 ++ r2.2))
    else
      process_triggers udp data_str udp_ctx (index + 1) rest w

/-- `UdpserverComponent::process_`. -/
def UdpserverComponent.process_ {ω : Type} (udp : WiFiUDP ω) (c : UdpserverComponent)
    (buf : List Byte) (len : Nat) (remote_ip : CString) (remote_port : Nat) (w : ω) :
    ω × List Call :=
  let udp_ctx : UDPContext := ⟨some (), remote_ip, remote_port⟩
  let data_str := std_string_n buf len
  process_triggers udp data_str udp_ctx 0 c.string_triggers_ w

/-- The conversion `%d` of an octet. -/
def decimal (b : Byte) : List Byte :=
  (Nat.toDigits 10 b.val).map (fun ch => Fin.ofNat ch.toNat)

/-- The characters `snprintf(remote_ip_str, size, "%d.%d.%d.%d", ...)` leaves in
`remote_ip_str` before the terminator: at most `size - 1` of them. -/
def snprintf_ip (size : Nat) (a : IPAddress) : CString :=
  (decimal a.o0 ++ [46] ++ decimal a.o1 ++ [46] ++ decimal a.o2 ++ [46] ++ decimal a.o3).take
    (size - 1)

/-- The outcome of one `loop()` call: `returned` carries the component state and the state
of the world with which the call returns; `undefined` stands for a call that does not
return.  Both carry the calls made.  The embedded `loop` always returns. -/
inductive LoopResult (ω : Type) where
  | returned (c : UdpserverComponent) (w : ω) (log : List Call) : LoopResult ω
  | undefined (log : List Call) : LoopResult ω

/-- The calls made during a `loop()` call. -/
def LoopResult.log {ω : Type} : LoopResult ω → List Call
  | .returned _ _ log => log
  | .undefined log => log

/-- Whether the call returned. -/
def LoopResult.is_returned {ω : Type} : LoopResult ω → Bool
  | .returned _ _ _ => true
  | .undefined _ => false

/-- Puts earlier calls in front of the log of an outcome. -/
def LoopResult.after {ω : Type} (earlier : List Call) : LoopResult ω → LoopResult ω
  | .returned c w log => .returned c w (earlier ++ log)
  | .undefined log => .undefined (earlier ++ log)

/-- Lines 123-160 of `UdpserverComponent::loop`: poll the socket and dispatch.  After
`packetSize > 0` the conversions of `packetSize` to `size_t` (the comparison with
`MAX_PACKET_SIZE`, the argument of `read`) keep its value.  The store `buffer[len] = '\0'`
is logged with its index; at an index outside `buffer[MAX_PACKET_SIZE]` it lands behind the
array and leaves the bytes of the array as they are, and the call goes on.  The text handed
to `process_` is made of the bytes of the array: with a `read` that returns more than the
`MAX_PACKET_SIZE` bytes it was asked for, the bytes behind the array are not part of it. -/
def UdpserverComponent.loop_receive {ω : Type} (udp : WiFiUDP ω) (c : UdpserverComponent)
    (w : ω) : LoopResult ω :=
  let p := udp.parsePacket w
  let packetSize := p.1
  if packetSize > 0 then
    let packetSize := if packetSize.toNat > MAX_PACKET_SIZE then (MAX_PACKET_SIZE : Int)
      else packetSize
    let r := udp.read packetSize.toNat p.2
    let len := r.1.1
    let buffer := r.1.2.val
    let received := [Call.parsePacket p.1, Call.read packetSize.toNat len buffer]
    if len > 0 then
      let buffer := buffer.set len.toNat 0
      let remote_addr := udp.remoteIP r.2
      let remote_port := udp.remotePort r.2
      let remote_ip_str := snprintf_ip 16 remote_addr
      if c.is_ip_allowed remote_ip_str = true then
        let d := c.process_ udp buffer len.toNat remote_ip_str remote_port r.2
        .returned c d.1
          (received ++ Call.store len.toNat :: Call.is_ip_allowed remote_ip_str true :: d.2)
      else
        .returned c r.2
          (received ++ [Call.store len.toNat, Call.is_ip_allowed remote_ip_str false])
    else
      .returned c r.2 received
  else
    .returned c p.2 [Call.parsePacket p.1]

/-- `UdpserverComponent::loop`.  `is_connected` is the readiness query compiled in by
`USE_WIFI` / `USE_ETHERNET` (constantly true when neither is defined). -/
def UdpserverComponent.loop {ω : Type} (is_connected : ω → Bool) (udp : WiFiUDP ω)
    (c : UdpserverComponent) (w : ω) : LoopResult ω :=
  if c.udp_initialized_ = false then
    if is_connected w = false then
      .returned c w [Call.is_connected false]
    else
      match udp.begin c.port_ w with
      | (false, w1) =>
        .returned c.mark_failed w1 [Call.is_connected true, Call.begin c.port_ false,
          Call.mark_failed]
      | (true, w1) =>
        LoopResult.after [Call.is_connected true, Call.begin c.port_ true]
          (UdpserverComponent.loop_receive udp { c with udp_initialized_ := true } w1)
  else
    UdpserverComponent.loop_receive udp c w

/-- A run of successive `loop()` calls; before each call the outside world takes a step of
its own (`steps`: datagrams arrive, the link comes up).  The result lists the outcome of
each call in order; the run stops at the first call that does not return. -/
def run {ω : Type} (is_connected : ω → Bool) (udp : WiFiUDP ω) :
    List (ω → ω) → UdpserverComponent → ω → List (LoopResult ω)
  | [], _, _ => []
  | step :: steps, c, w =>
    match c.loop is_connected udp (step w) with
    | .returned c1 w1 log => .returned c1 w1 log :: run is_connected udp steps c1 w1
    | .undefined log => [.undefined log]

/-! ## A simulated network

A concrete outside world on which the model can be run: a link, a socket with a queue of
pending datagrams and a record of the packets sent. -/

/-- A datagram waiting at the socket. -/
structure Datagram where
  payload : List Byte
  remote_ip : IPAddress
  remote_port : Nat

/-- A packet handed to the network: destination host, destination port, payload. -/
structure Packet where
  host : CString
  port : Nat
  payload : StdString
  deriving DecidableEq, Repr

/-- The state of the simulated network. -/
structure SimWorld where
  link_up : Bool
  bind_ok : Bool
  pending : List Datagram
  current : Option Datagram
  out_packet : Option Packet
  sent : List Packet

/-- A receive buffer that holds `data` (cut to the capacity) followed by zero bytes. -/
def fill_buffer (data : List Byte) : Buffer :=
  ⟨(data ++ List.replicate MAX_PACKET_SIZE 0).take MAX_PACKET_SIZE, by
    rw [List.length_take, List.length_append, List.length_replicate]; omega⟩

/-- The socket of the simulated network: `parsePacket` selects the next pending datagram and
reports its size, `read n` delivers at most `n` of its remaining bytes, `endPacket` records
the packet assembled since `beginPacket`. -/
def sim_udp : WiFiUDP SimWorld where
  begin := fun _ w => (w.bind_ok, w)
  parsePacket := fun w =>
    match w.pending with
    | [] => (0, { w with current := none })
    | d :: rest => ((d.payload.length : Int), { w with pending := rest, current := some d })
  read := fun n w =>
    match w.current with
    | none => ((0, fill_buffer []), w)
    | some d =>
      ((((d.payload.take n).length : Int), fill_buffer (d.payload.take n)),
        { w with current := some { d with payload := d.payload.drop n } })
  remoteIP := fun w =>
    match w.current with
    | none => ⟨0, 0, 0, 0⟩
    | some d => d.remote_ip
  remotePort := fun w =>
    match w.current with
    | none => 0
    | some d => d.remote_port
  beginPacket := fun host port w => (true, { w with out_packet := some ⟨host, port, []⟩ })
  write := fun data w =>
    match w.out_packet with
    | none => w
    | some pkt => { w with out_packet := some { pkt with payload := pkt.payload ++ data } }
  endPacket := fun w =>
    match w.out_packet with
    | none => (false, w)
    | some pkt => (true, { w with out_packet := none, sent := w.sent ++ [pkt] })

/-- The readiness query of the simulated network. -/
def sim_is_connected (w : SimWorld) : Bool := w.link_up

/-- A simulated network with the link up, a socket that binds, and the given datagrams
pending. -/
def sim_world (pending : List Datagram) : SimWorld :=
  ⟨true, true, pending, none, none, []⟩

/-- A trigger with mode "contains" and pattern "ON" whose automation replies "OK". -/
def contains_on_trigger : OnStringDataTrigger :=
  ⟨ascii "ON", ascii "contains", fun _ _ => Automation.send_response (ascii "OK")
    (fun _ => Automation.done)⟩

/-- The configuration `allow_all: false, allowed: ["10.0.0.5"]` with `contains_on_trigger`
registered, before the first `loop()` call. -/
def guarded_component : UdpserverComponent :=
  ((UdpserverComponent.default.set_allow_all_ips false).add_allowed_ip
    (ascii "10.0.0.5")).add_string_trigger contains_on_trigger

/-- The datagram "LIGHT ON" sent from `10.0.0.<last>`, port 4000. -/
def light_on_from (last : Byte) : Datagram :=
  ⟨ascii "LIGHT ON", ⟨10, 0, 0, last⟩, 4000⟩

/-- A datagram of `n` bytes 'A' sent from `10.0.0.5`, port 4000. -/
def long_datagram (n : Nat) : Datagram :=
  ⟨List.replicate n 65, ⟨10, 0, 0, 5⟩, 4000⟩

/-- A trigger left with the default members (mode "none", empty pattern) whose automation
sends the text back. -/
def echo_trigger : OnStringDataTrigger :=
  ⟨[], ascii "none", fun data _ => Automation.send_response data (fun _ => Automation.done)⟩

/-- The default configuration (every address allowed) with `echo_trigger` registered, before
the first `loop()` call. -/
def open_component : UdpserverComponent :=
  UdpserverComponent.default.add_string_trigger echo_trigger

/-- A trigger with mode "equals" and pattern "PING" whose automation replies "PONG". -/
def ping_trigger : OnStringDataTrigger :=
  ⟨ascii "PING", ascii "equals", fun _ _ => Automation.send_response (ascii "PONG")
    (fun _ => Automation.done)⟩

/-- The default configuration with `ping_trigger` registered, before the first `loop()`
call. -/
def ping_component : UdpserverComponent :=
  UdpserverComponent.default.add_string_trigger ping_trigger

/-- The datagram "PING" sent from `10.0.0.7`, port 5000. -/
def ping_datagram : Datagram :=
  ⟨ascii "PING", ⟨10, 0, 0, 7⟩, 5000⟩

/-- A simulated network with the link down and the given datagrams pending. -/
def sim_world_offline (pending : List Datagram) : SimWorld :=
  ⟨false, true, pending, none, none, []⟩

/-- The link of the simulated network comes up. -/
def sim_link_up (w : SimWorld) : SimWorld :=
  { w with link_up := true }

/-- A simulated network with the link up and a socket that refuses to bind. -/
def sim_world_unbindable (pending : List Datagram) : SimWorld :=
  ⟨true, false, pending, none, none, []⟩

/-- The socket of the simulated network becomes able to bind. -/
def sim_bind_ok (w : SimWorld) : SimWorld :=
  { w with bind_ok := true }

/-- The socket of the simulated network with a `read` that fails: it returns -1 and
delivers nothing. -/
def sim_udp_read_fails : WiFiUDP SimWorld :=
  { sim_udp with read := fun _ w => ((-1, fill_buffer []), w) }

/-- The guarded component after a successful bind. -/
def guarded_component_bound : UdpserverComponent :=
  { guarded_component with udp_initialized_ := true }

/-- A trigger with mode "equals" left with the default empty pattern; its automation does
nothing. -/
def unfiltered_trigger : OnStringDataTrigger :=
  ⟨[], ascii "equals", fun _ _ => Automation.done⟩

/-- The payload of `long_datagram 1401`: 1401 bytes 'A'. -/
def oversized_payload : List Byte :=
  List.replicate 1401 65

/-- A simulated network with the link up, a socket that binds, and a datagram of 1401 bytes
pending. -/
def oversized_world : SimWorld :=
  sim_world [long_datagram 1401]

/-! ## Observations on logs and outcomes -/

/-- Whether a log entry is a bind attempt that succeeded. -/
def Call.is_begin_ok : Call → Bool
  | .begin _ true => true
  | _ => false

/-- Whether a log entry is a poll of the socket (`parsePacket`). -/
def Call.is_poll : Call → Bool
  | .parsePacket _ => true
  | _ => false

/-- Whether a log entry is a `read`. -/
def Call.is_read : Call → Bool
  | .read _ _ _ => true
  | _ => false

/-- The value of `udp_initialized_` with which a call returned. -/
def LoopResult.udp_initialized {ω : Type} : LoopResult ω → Option Bool
  | .returned c _ _ => some c.udp_initialized_
  | .undefined _ => none

/-- The failed status with which a call returned. -/
def LoopResult.failed {ω : Type} : LoopResult ω → Option Bool
  | .returned c _ _ => some c.failed_
  | .undefined _ => none

/-- The state of the world in which the call after `steps` is made when no call before it
changes the world: each step of the world applied in turn. -/
def world_after {ω : Type} (steps : List (ω → ω)) (w : ω) : ω :=
  steps.foldl (fun v step => step v) w

/-! ## Facts about the string members -/

theorem traits_compare_eq_zero (a b : List Byte) : traits_compare a b = 0 ↔ a = b := by
  induction a generalizing b with
  | nil => cases b <;> simp [traits_compare]
  | cons x xs ih =>
    cases b with
    | nil => simp [traits_compare]
    | cons y ys =>
      simp only [traits_compare, List.cons.injEq]
      by_cases h1 : x < y
      · simp [h1]
        intro h; exact absurd h (ne_of_lt h1)
      · by_cases h2 : y < x
        · simp [h1, h2]
          intro h; exact absurd h.symm (ne_of_lt h2)
        · have hxy : x = y := le_antisymm (not_lt.mp h2) (not_lt.mp h1)
          simp [h1, h2, hxy, ih]

theorem match_at_iff (s str : StdString) (xpos : Nat) :
    match_at s str xpos = true ↔ xpos + str.length ≤ s.length ∧ str <+: s.drop xpos := by
  unfold match_at
  rw [Bool.and_eq_true, decide_eq_true_iff, decide_eq_true_iff, List.prefix_iff_eq_take]
  constructor
  · rintro ⟨h1, h2⟩; exact ⟨h1, h2.symm⟩
  · rintro ⟨h1, h2⟩; exact ⟨h1, h2.symm⟩

theorem match_at_zero_iff (s str : StdString) : match_at s str 0 = true ↔ str <+: s := by
  rw [match_at_iff]
  simp only [List.drop_zero, Nat.zero_add]
  constructor
  · exact fun h => h.2
  · exact fun h => ⟨h.length_le, h⟩

theorem find_isSome_iff (s str : StdString) : (find s str 0).isSome = true ↔ str <:+: s := by
  unfold find
  rw [List.find?_isSome]
  constructor
  · rintro ⟨x, _, hx⟩
    simp only [Nat.zero_le, decide_True, Bool.true_and] at hx
    obtain ⟨_, t, ht⟩ := (match_at_iff s str x).mp hx
    refine ⟨s.take x, t, ?_⟩
    rw [List.append_assoc, ht, List.take_append_drop]
  · rintro ⟨a, b, hab⟩
    refine ⟨a.length, ?_, ?_⟩
    · rw [List.mem_range, ← hab]
      simp only [List.length_append]
      omega
    · simp only [Nat.zero_le, decide_True, Bool.true_and]
      rw [match_at_iff, ← hab]
      refine ⟨by simp only [List.length_append]; omega, b, ?_⟩
      rw [List.append_assoc, List.drop_left]

theorem rfind_zero_iff (s str : StdString) : rfind s str 0 = some 0 ↔ str <+: s := by
  rw [← match_at_zero_iff]
  unfold rfind
  constructor
  · intro h
    have := List.find?_some h
    simpa using this
  · intro h
    have hsome : ((List.range (s.length + 1)).reverse.find?
        (fun xpos => decide (xpos ≤ 0) && match_at s str xpos)).isSome = true := by
      rw [List.find?_isSome]
      exact ⟨0, by simp, by simp [h]⟩
    obtain ⟨y, hy⟩ := Option.isSome_iff_exists.mp hsome
    have hp := List.find?_some hy
    simp only [Bool.and_eq_true, decide_eq_true_iff, Nat.le_zero] at hp
    rw [hy, hp.1]

theorem is_ip_allowed_scan_iff (ip_str : StdString) (l : List StdString) :
    is_ip_allowed_scan ip_str l = true ↔ ip_str ∈ l := by
  induction l with
  | nil => simp [is_ip_allowed_scan]
  | cons a rest ih =>
    unfold is_ip_allowed_scan
    by_cases h : ip_str = a
    · simp [h]
    · simp [h, ih]

/-! ## The allow-list guard -/

/-- C1: for every allow-all flag, every allow-list and every source address (the C string
that the argument of `is_ip_allowed` denotes), `is_ip_allowed` returns true if and only if
the flag is set, or the list is empty, or some entry of the list is byte-for-byte equal to
the address. -/
theorem is_ip_allowed_iff (c : UdpserverComponent) (ip : CString) :
    c.is_ip_allowed ip = true ↔
      c.allow_all_ips_ = true ∨ c.allowed_ips_ = [] ∨ ∃ entry ∈ c.allowed_ips_, entry = std_string ip := by
  unfold UdpserverComponent.is_ip_allowed
  by_cases h1 : c.allow_all_ips_ = true
  · simp [h1]
  · by_cases h2 : c.allowed_ips_ = []
    · simp [h2]
    · have h3 : ¬ (c.allowed_ips_.isEmpty = true) := by
        rw [List.isEmpty_iff]; exact h2
      simp [h1, h2, h3, is_ip_allowed_scan_iff]

/-! ## The filter evaluator -/

/-- C2 (the claim as stated fails): with mode "equals" and the empty pattern the text "X",
which differs from the pattern, is matched. -/
theorem matches_filter_equals_empty_pattern_counterexample :
    ¬ (OnStringDataTrigger.matches_filter ⟨[], ascii "equals", fun _ _ => Automation.done⟩
          (ascii "X") = true ↔ ascii "X" = ([] : StdString)) := by
  decide

/-- C2 (amended): for every pattern and every text, `matches_filter` with mode "equals"
returns true if and only if the pattern is empty or the text is exactly equal to the
pattern. -/
theorem matches_filter_equals_iff (pattern text : StdString)
    (act : StdString → UDPContext → Automation) :
    OnStringDataTrigger.matches_filter ⟨pattern, ascii "equals", act⟩ text = true ↔
      pattern = [] ∨ text = pattern := by
  have h1 : ascii "equals" ≠ ascii "none" := by decide
  have h2 : ascii "equals" ≠ ascii "contains" := by decide
  have h3 : ascii "equals" ≠ ascii "starts_with" := by decide
  have h4 : ascii "equals" ≠ ascii "ends_with" := by decide
  unfold OnStringDataTrigger.matches_filter
  by_cases hp : pattern = []
  · simp [hp]
  · simp [h1, h2, h3, h4, hp]

/-- C3: for every pattern and every text, `matches_filter` with mode "contains" returns true
if and only if the pattern occurs as a contiguous (possibly empty) substring of the text. -/
theorem matches_filter_contains_iff (pattern text : StdString)
    (act : StdString → UDPContext → Automation) :
    OnStringDataTrigger.matches_filter ⟨pattern, ascii "contains", act⟩ text = true ↔
      ∃ before after, before ++ pattern ++ after = text := by
  have h1 : ascii "contains" ≠ ascii "none" := by decide
  unfold OnStringDataTrigger.matches_filter
  by_cases hp : pattern = []
  · simp only [hp, or_true, if_true, true_iff]
    exact ⟨[], text, rfl⟩
  · simp only [h1, hp, or_self, if_false, if_true]
    exact find_isSome_iff text pattern

/-- C4: for every pattern and every text, `matches_filter` with mode "starts_with"
(`data.rfind(pattern, 0) == 0`) returns true if and only if the text begins with the
pattern. -/
theorem matches_filter_starts_with_iff (pattern text : StdString)
    (act : StdString → UDPContext → Automation) :
    OnStringDataTrigger.matches_filter ⟨pattern, ascii "starts_with", act⟩ text = true ↔
      ∃ rest, pattern ++ rest = text := by
  have h1 : ascii "starts_with" ≠ ascii "none" := by decide
  have h2 : ascii "starts_with" ≠ ascii "contains" := by decide
  unfold OnStringDataTrigger.matches_filter
  by_cases hp : pattern = []
  · simp only [hp, or_true, if_true, true_iff]
    exact ⟨text, rfl⟩
  · simp only [h1, h2, hp, or_self, if_false, if_true, decide_eq_true_iff]
    exact rfind_zero_iff text pattern

/-- C5: for every pattern and every text, `matches_filter` with mode "ends_with" returns
true if and only if `len(text) >= len(pattern)` and the last `len(pattern)` characters of
the text equal the pattern; and either the text is shorter than the pattern (the offset is
not computed) or the `size_t` offset `len(text) - len(pattern)` is the true difference, not
a wrapped value. -/
theorem matches_filter_ends_with_iff (pattern text : StdString)
    (act : StdString → UDPContext → Automation) :
    (OnStringDataTrigger.matches_filter ⟨pattern, ascii "ends_with", act⟩ text = true ↔
      pattern.length ≤ text.length ∧ text.drop (text.length - pattern.length) = pattern) ∧
    (text.length < pattern.length ∨
      size_sub text.length pattern.length + pattern.length = text.length) := by
  have h1 : ascii "ends_with" ≠ ascii "none" := by decide
  have h2 : ascii "ends_with" ≠ ascii "contains" := by decide
  have h3 : ascii "ends_with" ≠ ascii "starts_with" := by decide
  constructor
  · unfold OnStringDataTrigger.matches_filter
    by_cases hp : pattern = []
    · simp [hp]
    · simp only [h1, h2, h3, hp, or_self, if_false, if_true]
      by_cases hl : text.length ≥ pattern.length
      · have hs : size_sub text.length pattern.length = text.length - pattern.length := by
          unfold size_sub; rw [if_pos hl]
        have hm : min pattern.length (text.length - (text.length - pattern.length))
            = pattern.length := by omega
        have hd : (text.drop (text.length - pattern.length)).length = pattern.length := by
          rw [List.length_drop]; omega
        rw [dif_pos hl, decide_eq_true_iff]
        unfold compare
        rw [traits_compare_eq_zero, hs, hm, List.take_of_length_le (le_of_eq hd)]
        exact ⟨fun h => ⟨hl, h⟩, fun h => h.2⟩
      · rw [dif_neg hl]
        constructor
        · intro h; exact absurd h (by decide)
        · intro h; exact absurd h.1 hl
  · by_cases hl : pattern.length ≤ text.length
    · right
      unfold size_sub
      rw [if_pos hl]
      omega
    · left
      omega

/-- C6: for every filter mode that is not one of "contains", "starts_with", "ends_with",
"equals" (this includes "none" and every unrecognized mode), `matches_filter` returns true
for every pattern and every text. -/
theorem matches_filter_other_mode (mode pattern text : StdString)
    (act : StdString → UDPContext → Automation)
    (h1 : mode ≠ ascii "contains") (h2 : mode ≠ ascii "starts_with")
    (h3 : mode ≠ ascii "ends_with") (h4 : mode ≠ ascii "equals") :
    OnStringDataTrigger.matches_filter ⟨pattern, mode, act⟩ text = true := by
  unfold OnStringDataTrigger.matches_filter
  simp [h1, h2, h3, h4]

/-- C6 at concrete inputs: the unrecognized mode "regex" with pattern "PING" matches the
text "PONG". -/
theorem matches_filter_other_mode_witness :
    (ascii "regex" ≠ ascii "contains" ∧ ascii "regex" ≠ ascii "starts_with" ∧
      ascii "regex" ≠ ascii "ends_with" ∧ ascii "regex" ≠ ascii "equals") ∧
    OnStringDataTrigger.matches_filter
      ⟨ascii "PING", ascii "regex", fun _ _ => Automation.done⟩ (ascii "PONG") = true :=
  ⟨by decide, matches_filter_other_mode (ascii "regex") (ascii "PING") (ascii "PONG")
    (fun _ _ => Automation.done) (by decide) (by decide) (by decide) (by decide)⟩

/-! ## Dispatch -/

theorem invocations_append (a b : List Call) :
    invocations (a ++ b) = invocations a ++ invocations b := by
  unfold invocations
  exact List.filterMap_append _ _ _

theorem send_response_invocations {ω : Type} (udp : WiFiUDP ω) (ctx : UDPContext)
    (data : StdString) (w : ω) : invocations (ctx.send_response udp data w).2.2 = [] := by
  unfold UDPContext.send_response
  cases ctx.udp_ with
  | none => rfl
  | some u =>
    simp only
    split <;> rfl

theorem automation_run_invocations {ω : Type} (udp : WiFiUDP ω) (ctx : UDPContext)
    (a : Automation) (w : ω) : invocations (a.run udp ctx w).2 = [] := by
  induction a generalizing w with
  | done => rfl
  | send_response data next ih =>
    simp only [Automation.run, invocations_append, send_response_invocations, ih,
      List.append_nil]

theorem process_triggers_invocations {ω : Type} (udp : WiFiUDP ω) (data_str : StdString)
    (udp_ctx : UDPContext) (ts : List OnStringDataTrigger) (index : Nat) (w : ω) :
    invocations (process_triggers udp data_str udp_ctx index ts w).2 =
      ((ts.enumFrom index).filter (fun p => p.2.matches_filter data_str)).map
        (fun p => (p.1, data_str)) := by
  induction ts generalizing index w with
  | nil => rfl
  | cons t rest ih =>
    unfold process_triggers
    by_cases hm : t.matches_filter data_str = true
    · simp only [hm, if_true, List.enumFrom_cons, List.filter_cons, List.map_cons]
      rw [← List.singleton_append, invocations_append, invocations_append,
        automation_run_invocations, ih]
      rfl
    · simp only [hm, if_false, List.enumFrom_cons, List.filter_cons]
      exact ih _ _

/-- C7: for every list of registered triggers and every payload, the sequence of trigger
invocations made by `process_` is exactly the sub-sequence of `string_triggers_` (kept in
`add_string_trigger` insertion order) whose `matches_filter` accepts the text, each position
of the list invoked once with that same text and no other position invoked. -/
theorem process_invokes_matching {ω : Type} (udp : WiFiUDP ω) (c : UdpserverComponent)
    (buf : List Byte) (len : Nat) (remote_ip : CString) (remote_port : Nat) (w : ω) :
    invocations (c.process_ udp buf len remote_ip remote_port w).2 =
        ((c.string_triggers_.enum).filter
          (fun p => p.2.matches_filter (std_string_n buf len))).map
          (fun p => (p.1, std_string_n buf len)) ∧
      ∀ t : OnStringDataTrigger,
        (c.add_string_trigger t).string_triggers_ = c.string_triggers_ ++ [t] := by
  refine ⟨?_, fun _ => rfl⟩
  unfold UdpserverComponent.process_
  exact process_triggers_invocations udp _ _ c.string_triggers_ 0 w

/-! ## The call log of a dispatch -/

theorem send_response_log_is_send {ω : Type} (udp : WiFiUDP ω) (ctx : UDPContext)
    (data : StdString) (w : ω) :
    ∀ e ∈ (ctx.send_response udp data w).2.2, e.is_send = true := by
  unfold UDPContext.send_response
  cases ctx.udp_ with
  | none => simp
  | some u =>
    simp only
    split <;> simp [Call.is_send]

theorem automation_run_log_is_send {ω : Type} (udp : WiFiUDP ω) (ctx : UDPContext)
    (a : Automation) (w : ω) : ∀ e ∈ (a.run udp ctx w).2, e.is_send = true := by
  induction a generalizing w with
  | done => simp [Automation.run]
  | send_response data next ih =>
    intro e he
    simp only [Automation.run, List.mem_append] at he
    rcases he with he | he
    · exact send_response_log_is_send udp ctx data w e he
    · exact ih _ _ e he

theorem process_triggers_log {ω : Type} (udp : WiFiUDP ω) (data_str : StdString)
    (udp_ctx : UDPContext) (ts : List OnStringDataTrigger) (index : Nat) (w : ω) :
    ∀ e ∈ (process_triggers udp data_str udp_ctx index ts w).2,
      e.is_send = true ∨ ∃ i, e = Call.trigger i data_str udp_ctx := by
  induction ts generalizing index w with
  | nil => simp [process_triggers]
  | cons t rest ih =>
    intro e he
    unfold process_triggers at he
    by_cases hm : t.matches_filter data_str = true
    · simp only [hm, if_true, List.mem_cons, List.mem_append] at he
      rcases he with he | he | he
      · exact Or.inr ⟨index, he⟩
      · exact Or.inl (automation_run_log_is_send udp udp_ctx _ w e he)
      · exact ih _ _ e he
    · simp only [hm, if_false] at he
      exact ih _ _ e he

theorem process_log {ω : Type} (udp : WiFiUDP ω) (c : UdpserverComponent) (buf : List Byte)
    (len : Nat) (remote_ip : CString) (remote_port : Nat) (w : ω) :
    ∀ e ∈ (c.process_ udp buf len remote_ip remote_port w).2,
      e.is_send = true ∨
        ∃ i, e = Call.trigger i (std_string_n buf len) ⟨some (), remote_ip, remote_port⟩ := by
  unfold UdpserverComponent.process_
  exact process_triggers_log udp _ _ c.string_triggers_ 0 w

theorem log_after {ω : Type} (earlier : List Call) (r : LoopResult ω) :
    (LoopResult.after earlier r).log = earlier ++ r.log := by
  cases r <;> rfl

theorem is_returned_after {ω : Type} (earlier : List Call) (r : LoopResult ω) :
    (LoopResult.after earlier r).is_returned = r.is_returned := by
  cases r <;> rfl

/-- The four ways through lines 123-160 of `loop`: nothing pending; a failed or empty read;
a datagram from a rejected address; a datagram dispatched to `process_`. -/
theorem loop_receive_shape {ω : Type} (udp : WiFiUDP ω) (c : UdpserverComponent) (w : ω) :
    (∃ p w1, p ≤ 0 ∧ c.loop_receive udp w = .returned c w1 [Call.parsePacket p]) ∨
    (∃ p n len buf w1, 0 < p ∧ n ≤ MAX_PACKET_SIZE ∧ len ≤ 0 ∧
      c.loop_receive udp w = .returned c w1 [Call.parsePacket p, Call.read n len buf]) ∨
    (∃ p n w0 len, ∃ buf : Buffer, ∃ w1 ip, 0 < p ∧ n ≤ MAX_PACKET_SIZE ∧
      udp.read n w0 = ((len, buf), w1) ∧ 0 < len ∧ c.is_ip_allowed ip = false ∧
      c.loop_receive udp w = .returned c w1
        [Call.parsePacket p, Call.read n len buf.val, Call.store len.toNat,
          Call.is_ip_allowed ip false]) ∨
    (∃ p n w0 len, ∃ buf : Buffer, ∃ w1 ip port, 0 < p ∧ n ≤ MAX_PACKET_SIZE ∧
      udp.read n w0 = ((len, buf), w1) ∧ 0 < len ∧ c.is_ip_allowed ip = true ∧
      c.loop_receive udp w = .returned c
        (c.process_ udp (buf.val.set len.toNat 0) len.toNat ip port w1).1
        ([Call.parsePacket p, Call.read n len buf.val, Call.store len.toNat,
            Call.is_ip_allowed ip true] ++
          (c.process_ udp (buf.val.set len.toNat 0) len.toNat ip port w1).2)) := by
  have hcap : ∀ q : Int, 0 < q →
      (if q.toNat > MAX_PACKET_SIZE then (MAX_PACKET_SIZE : Int) else q).toNat
        ≤ MAX_PACKET_SIZE := by
    intro q _
    split_ifs with hq
    · simp
    · omega
  unfold UdpserverComponent.loop_receive
  simp only
  by_cases h1 : (udp.parsePacket w).1 > 0
  · rw [if_pos h1]
    right
    generalize hn : (if (udp.parsePacket w).1.toNat > MAX_PACKET_SIZE then (MAX_PACKET_SIZE : Int)
      else (udp.parsePacket w).1).toNat = n
    have hn' : n ≤ MAX_PACKET_SIZE := hn ▸ hcap _ h1
    by_cases h3 : (udp.read n (udp.parsePacket w).2).1.1 > 0
    · rw [if_pos h3]
      right
      by_cases h5 : c.is_ip_allowed
          (snprintf_ip 16 (udp.remoteIP (udp.read n (udp.parsePacket w).2).2)) = true
      · rw [if_pos h5]
        right
        exact ⟨_, n, (udp.parsePacket w).2, _, (udp.read n (udp.parsePacket w).2).1.2, _, _, _,
          h1, hn', rfl, h3, h5, rfl⟩
      · rw [if_neg h5]
        left
        exact ⟨_, n, (udp.parsePacket w).2, _, (udp.read n (udp.parsePacket w).2).1.2, _, _,
          h1, hn', rfl, h3, by simpa using h5, rfl⟩
    · rw [if_neg h3]
      left
      exact ⟨_, n, _, _, _, h1, hn', not_lt.mp h3, rfl⟩
  · rw [if_neg h1]
    left
    exact ⟨_, _, not_lt.mp h1, rfl⟩

theorem loop_receive_is_returned {ω : Type} (udp : WiFiUDP ω) (c : UdpserverComponent)
    (w : ω) : (c.loop_receive udp w).is_returned = true := by
  rcases loop_receive_shape udp c w with ⟨p, w1, _, hr⟩ | ⟨p, n, len, buf, w1, _, _, _, hr⟩ |
    ⟨p, n, w0, len, buf, w1, ip1, _, _, _, _, _, hr⟩ |
    ⟨p, n, w0, len, buf, w1, ip1, port, _, _, _, _, _, hr⟩
  all_goals
    rw [hr]
    rfl

theorem loop_receive_rejected {ω : Type} (udp : WiFiUDP ω) (c : UdpserverComponent) (w : ω)
    (ip : CString) (h : Call.is_ip_allowed ip false ∈ (c.loop_receive udp w).log) :
    (c.loop_receive udp w).is_returned = true ∧
      ∀ e ∈ (c.loop_receive udp w).log, e.is_trigger = false ∧ e.is_send = false := by
  rcases loop_receive_shape udp c w with ⟨p, w1, _, hr⟩ | ⟨p, n, len, buf, w1, _, _, _, hr⟩ |
    ⟨p, n, w0, len, buf, w1, ip1, _, _, _, _, _, hr⟩ |
    ⟨p, n, w0, len, buf, w1, ip1, port, _, _, _, _, _, hr⟩
  · rw [hr] at h; simp [LoopResult.log] at h
  · rw [hr] at h; simp [LoopResult.log] at h
  · rw [hr]
    simp [LoopResult.log, LoopResult.is_returned, Call.is_trigger, Call.is_send]
  · rw [hr] at h
    simp only [LoopResult.log, List.mem_append, List.mem_cons, List.mem_singleton,
      List.not_mem_nil, or_false] at h
    rcases h with (h | h | h | h) | h
    · cases h
    · cases h
    · cases h
    · cases h
    · rcases process_log udp c _ _ _ _ _ _ h with hs | ⟨i, hi⟩
      · simp [Call.is_send] at hs
      · cases hi

/-- C8: for every call of `loop` in which `is_ip_allowed` rejects the source address of the
received datagram, the call returns, no trigger is invoked and no reply is sent (the call
log holds no trigger invocation and no `beginPacket`, `write` or `endPacket`), whatever the
payload and whatever the filters of the registered triggers. -/
theorem loop_rejected_no_dispatch {ω : Type} (is_connected : ω → Bool) (udp : WiFiUDP ω)
    (c : UdpserverComponent) (w : ω) (ip : CString)
    (h : Call.is_ip_allowed ip false ∈ (c.loop is_connected udp w).log) :
    (c.loop is_connected udp w).is_returned = true ∧
      ∀ e ∈ (c.loop is_connected udp w).log, e.is_trigger = false ∧ e.is_send = false := by
  unfold UdpserverComponent.loop at h ⊢
  by_cases h1 : c.udp_initialized_ = false
  · rw [if_pos h1] at h ⊢
    by_cases h2 : is_connected w = false
    · rw [if_pos h2] at h
      simp [LoopResult.log] at h
    · rw [if_neg h2] at h ⊢
      rcases hb : udp.begin c.port_ w with ⟨b, w1⟩
      rw [hb] at h
      cases b with
      | false => simp [LoopResult.log] at h
      | true =>
        simp only [log_after, is_returned_after, List.mem_append, List.mem_cons,
          List.mem_singleton, List.not_mem_nil, or_false] at h ⊢
        rcases h with (h | h) | h
        · cases h
        · cases h
        · obtain ⟨hret, hlog⟩ := loop_receive_rejected udp _ w1 ip h
          refine ⟨hret, ?_⟩
          rintro e ((he | he) | he)
          · subst he; exact ⟨rfl, rfl⟩
          · subst he; exact ⟨rfl, rfl⟩
          · exact hlog e he
  · rw [if_neg h1] at h ⊢
    exact loop_receive_rejected udp c w ip h

set_option maxRecDepth 100000 in
/-- C8 at the inputs of the claim: `allow_all: false`, `allowed: ["10.0.0.5"]`, a trigger
with mode "contains" and pattern "ON", and the datagram "LIGHT ON" from `10.0.0.9`. -/
theorem loop_rejected_no_dispatch_witness :
    Call.is_ip_allowed (ascii "10.0.0.9") false ∈
        (guarded_component.loop sim_is_connected sim_udp (sim_world [light_on_from 9])).log ∧
      ((guarded_component.loop sim_is_connected sim_udp
          (sim_world [light_on_from 9])).is_returned = true ∧
        ∀ e ∈ (guarded_component.loop sim_is_connected sim_udp
            (sim_world [light_on_from 9])).log, e.is_trigger = false ∧ e.is_send = false) :=
  ⟨by decide, loop_rejected_no_dispatch sim_is_connected sim_udp guarded_component
    (sim_world [light_on_from 9]) (ascii "10.0.0.9") (by decide)⟩

/-! ## Truncation and the text handed to the triggers -/

theorem take_set_self (l : List Byte) (k : Nat) (b : Byte) : (l.set k b).take k = l.take k := by
  rw [List.set_take]
  exact List.set_eq_of_length_le (List.length_take_le k l)

theorem loop_receive_trigger_text {ω : Type} (udp : WiFiUDP ω) (c : UdpserverComponent) (w : ω)
    (i : Nat) (data : StdString) (ctx : UDPContext)
    (h : Call.trigger i data ctx ∈ (c.loop_receive udp w).log) :
    ∃ n w0, Call.read n (udp.read n w0).1.1 (udp.read n w0).1.2.val ∈
        (c.loop_receive udp w).log ∧ n ≤ MAX_PACKET_SIZE ∧ 0 < (udp.read n w0).1.1 ∧
      data = std_string_n (udp.read n w0).1.2.val (udp.read n w0).1.1.toNat := by
  rcases loop_receive_shape udp c w with ⟨p, w1, _, hr⟩ | ⟨p, n, len, buf, w1, _, _, _, hr⟩ |
    ⟨p, n, w0, len, buf, w1, ip1, _, _, _, _, _, hr⟩ |
    ⟨p, n, w0, len, buf, w1, ip1, port, _, hn, hread, hlen, _, hr⟩
  · rw [hr] at h; simp [LoopResult.log] at h
  · rw [hr] at h; simp [LoopResult.log] at h
  · rw [hr] at h; simp [LoopResult.log] at h
  · rw [hr] at h ⊢
    simp only [LoopResult.log, List.mem_append, List.mem_cons, List.mem_singleton,
      List.not_mem_nil, or_false] at h
    refine ⟨n, w0, by rw [hread]; simp [LoopResult.log], hn, by rw [hread]; exact hlen, ?_⟩
    rw [hread]
    rcases h with (h | h | h | h) | h
    · cases h
    · cases h
    · cases h
    · cases h
    · rcases process_log udp c _ _ _ _ _ _ h with hs | ⟨j, hj⟩
      · simp [Call.is_send] at hs
      · injection hj with _ hdata _
        rw [hdata]
        exact take_set_self _ _ _

theorem loop_trigger_text {ω : Type} (is_connected : ω → Bool) (udp : WiFiUDP ω)
    (c : UdpserverComponent) (w : ω) (i : Nat) (data : StdString) (ctx : UDPContext)
    (h : Call.trigger i data ctx ∈ (c.loop is_connected udp w).log) :
    ∃ n w0, Call.read n (udp.read n w0).1.1 (udp.read n w0).1.2.val ∈
        (c.loop is_connected udp w).log ∧ n ≤ MAX_PACKET_SIZE ∧ 0 < (udp.read n w0).1.1 ∧
      data = std_string_n (udp.read n w0).1.2.val (udp.read n w0).1.1.toNat := by
  unfold UdpserverComponent.loop at h ⊢
  by_cases h1 : c.udp_initialized_ = false
  · rw [if_pos h1] at h ⊢
    by_cases h2 : is_connected w = false
    · rw [if_pos h2] at h
      simp [LoopResult.log] at h
    · rw [if_neg h2] at h ⊢
      rcases hb : udp.begin c.port_ w with ⟨b, w1⟩
      rw [hb] at h
      cases b with
      | false => simp [LoopResult.log] at h
      | true =>
        simp only [log_after, List.mem_append, List.mem_cons,
          List.mem_singleton, List.not_mem_nil, or_false] at h ⊢
        rcases h with (h | h) | h
        · cases h
        · cases h
        · obtain ⟨n, w0, hmem, rest⟩ := loop_receive_trigger_text udp _ w1 i data ctx h
          exact ⟨n, w0, Or.inr hmem, rest⟩
  · rw [if_neg h1] at h ⊢
    exact loop_receive_trigger_text udp c w i data ctx h

theorem loop_mem_run {ω : Type} (is_connected : ω → Bool) (udp : WiFiUDP ω) (step : ω → ω)
    (steps : List (ω → ω)) (c : UdpserverComponent) (w : ω) :
    c.loop is_connected udp (step w) ∈ run is_connected udp (step :: steps) c w := by
  unfold run
  cases c.loop is_connected udp (step w) <;> simp

theorem mem_run_is_loop {ω : Type} (is_connected : ω → Bool) (udp : WiFiUDP ω)
    (steps : List (ω → ω)) (c : UdpserverComponent) (w : ω) (r : LoopResult ω)
    (hr : r ∈ run is_connected udp steps c w) :
    ∃ c1 w1, r = UdpserverComponent.loop is_connected udp c1 w1 := by
  induction steps generalizing c w with
  | nil => simp [run] at hr
  | cons step steps ih =>
    unfold run at hr
    rcases hl : c.loop is_connected udp (step w) with ⟨c1, w1, log⟩ | ⟨log⟩
    · rw [hl] at hr
      simp only [List.mem_cons] at hr
      rcases hr with hr | hr
      · exact ⟨c, step w, by rw [hr, hl]⟩
      · exact ih c1 w1 hr
    · rw [hl] at hr
      simp only [List.mem_singleton] at hr
      exact ⟨c, step w, by rw [hr, hl]⟩

theorem sim_udp_read_le (n : Nat) (w : SimWorld) : (sim_udp.read n w).1.1 ≤ n := by
  unfold sim_udp
  simp only
  cases w.current with
  | none => exact Int.ofNat_nonneg n
  | some d =>
    simp only
    exact Int.ofNat_le.mpr (List.length_take_le n d.payload)

/-- C10: for every run of `loop()` calls and every socket whose `read` returns at most the
number of bytes requested, the text passed to a trigger has length at least 1 and at most
`MAX_PACKET_SIZE`: it is exactly the first `len` bytes that the `read` of the same call left
in the buffer, where `len` is the result of that `read`, at most the number `n` of bytes
requested, itself at most `MAX_PACKET_SIZE`; its length is `len`, it is not cut at a zero
byte. -/
theorem trigger_text_is_bytes_read {ω : Type} (is_connected : ω → Bool) (udp : WiFiUDP ω)
    (steps : List (ω → ω)) (c : UdpserverComponent) (w : ω) (r : LoopResult ω)
    (i : Nat) (data : StdString) (ctx : UDPContext)
    (hread : ∀ n w0, (udp.read n w0).1.1 ≤ n)
    (hr : r ∈ run is_connected udp steps c w) (ht : Call.trigger i data ctx ∈ r.log) :
    1 ≤ data.length ∧ data.length ≤ MAX_PACKET_SIZE ∧
      ∃ n len buffer, Call.read n len buffer ∈ r.log ∧ n ≤ MAX_PACKET_SIZE ∧ len ≤ n ∧
        (data.length : Int) = len ∧ data = std_string_n buffer data.length := by
  obtain ⟨c1, w1, rfl⟩ := mem_run_is_loop is_connected udp steps c w r hr
  obtain ⟨n, w0, hmem, hn, hpos, hdata⟩ :=
    loop_trigger_text is_connected udp c1 w1 i data ctx ht
  have hle := hread n w0
  have hbuf : (udp.read n w0).1.2.val.length = MAX_PACKET_SIZE := (udp.read n w0).1.2.property
  have hlen : data.length = (udp.read n w0).1.1.toNat := by
    rw [hdata]
    unfold std_string_n
    rw [List.length_take, hbuf]
    omega
  refine ⟨by omega, by omega, n, _, _, hmem, hn, hle, by omega, ?_⟩
  rw [hlen]
  exact hdata

set_option maxRecDepth 100000 in
/-- C10 at concrete inputs: the datagram "LIGHT ON" from the allowed address `10.0.0.5` is
handed to the trigger as the 8 bytes read. -/
theorem trigger_text_is_bytes_read_witness :
    ((∀ n w0, (sim_udp.read n w0).1.1 ≤ n) ∧
      guarded_component.loop sim_is_connected sim_udp (id (sim_world [light_on_from 5])) ∈
        run sim_is_connected sim_udp [id] guarded_component (sim_world [light_on_from 5]) ∧
      Call.trigger 0 (ascii "LIGHT ON") ⟨some (), ascii "10.0.0.5", 4000⟩ ∈
        (guarded_component.loop sim_is_connected sim_udp
          (id (sim_world [light_on_from 5]))).log) ∧
    (1 ≤ (ascii "LIGHT ON").length ∧ (ascii "LIGHT ON").length ≤ MAX_PACKET_SIZE ∧
      ∃ n len buffer, Call.read n len buffer ∈
          (guarded_component.loop sim_is_connected sim_udp
            (id (sim_world [light_on_from 5]))).log ∧ n ≤ MAX_PACKET_SIZE ∧ len ≤ n ∧
        ((ascii "LIGHT ON").length : Int) = len ∧
        ascii "LIGHT ON" = std_string_n buffer (ascii "LIGHT ON").length) :=
  ⟨⟨sim_udp_read_le,
      loop_mem_run sim_is_connected sim_udp id [] guarded_component (sim_world [light_on_from 5]),
      by decide⟩,
    trigger_text_is_bytes_read sim_is_connected sim_udp [id] guarded_component
      (sim_world [light_on_from 5]) _ 0 (ascii "LIGHT ON") ⟨some (), ascii "10.0.0.5", 4000⟩
      sim_udp_read_le
      (loop_mem_run sim_is_connected sim_udp id [] guarded_component
        (sim_world [light_on_from 5])) (by decide)⟩

/-! ## The lifecycle -/

/-- C11: for every state with `udp_initialized_` false, a call of `loop` while the readiness
query reports not-ready returns with the component (`udp_initialized_`, failed status,
configuration, trigger list) and the world unchanged, and the only call it makes is the
readiness query: no bind attempt, no receive, no trigger invocation. -/
theorem loop_unbound_not_ready {ω : Type} (is_connected : ω → Bool) (udp : WiFiUDP ω)
    (c : UdpserverComponent) (w : ω) (hc : c.udp_initialized_ = false)
    (hn : is_connected w = false) :
    c.loop is_connected udp w = .returned c w [Call.is_connected false] ∧
      ∀ e ∈ (c.loop is_connected udp w).log,
        e.is_begin = false ∧ e.is_receive = false ∧ e.is_trigger = false ∧
          e.is_send = false := by
  have h : c.loop is_connected udp w = .returned c w [Call.is_connected false] := by
    unfold UdpserverComponent.loop
    rw [if_pos hc, if_pos hn]
  refine ⟨h, ?_⟩
  rw [h]
  intro e he
  simp only [LoopResult.log, List.mem_singleton] at he
  subst he
  exact ⟨rfl, rfl, rfl, rfl⟩

/-- C11 at concrete inputs: the guarded component, not yet bound, with the link down and a
datagram pending. -/
theorem loop_unbound_not_ready_witness :
    (guarded_component.udp_initialized_ = false ∧
      sim_is_connected (sim_world_offline [light_on_from 5]) = false) ∧
    (guarded_component.loop sim_is_connected sim_udp (sim_world_offline [light_on_from 5]) =
        .returned guarded_component (sim_world_offline [light_on_from 5])
          [Call.is_connected false] ∧
      ∀ e ∈ (guarded_component.loop sim_is_connected sim_udp
          (sim_world_offline [light_on_from 5])).log,
        e.is_begin = false ∧ e.is_receive = false ∧ e.is_trigger = false ∧
          e.is_send = false) :=
  ⟨⟨by decide, by decide⟩, loop_unbound_not_ready sim_is_connected sim_udp guarded_component
    (sim_world_offline [light_on_from 5]) (by decide) (by decide)⟩

/-! ### The ways through `loop` -/

theorem loop_of_bound {ω : Type} (is_connected : ω → Bool) (udp : WiFiUDP ω)
    (c : UdpserverComponent) (w : ω) (hc : c.udp_initialized_ = true) :
    c.loop is_connected udp w = c.loop_receive udp w := by
  unfold UdpserverComponent.loop
  rw [if_neg (by simp [hc])]

theorem loop_of_not_ready {ω : Type} (is_connected : ω → Bool) (udp : WiFiUDP ω)
    (c : UdpserverComponent) (w : ω) (hc : c.udp_initialized_ = false)
    (hn : is_connected w = false) :
    c.loop is_connected udp w = .returned c w [Call.is_connected false] := by
  unfold UdpserverComponent.loop
  rw [if_pos hc, if_pos hn]

theorem loop_of_bind_failed {ω : Type} (is_connected : ω → Bool) (udp : WiFiUDP ω)
    (c : UdpserverComponent) (w : ω) (hc : c.udp_initialized_ = false)
    (hn : is_connected w = true) (hb : (udp.begin c.port_ w).1 = false) :
    c.loop is_connected udp w = .returned c.mark_failed (udp.begin c.port_ w).2
      [Call.is_connected true, Call.begin c.port_ false, Call.mark_failed] := by
  unfold UdpserverComponent.loop
  rw [if_pos hc, if_neg (by simp [hn])]
  rcases hbw : udp.begin c.port_ w with ⟨b, w1⟩
  rw [hbw] at hb
  simp only at hb
  subst hb
  rfl

theorem loop_of_bind_ok {ω : Type} (is_connected : ω → Bool) (udp : WiFiUDP ω)
    (c : UdpserverComponent) (w : ω) (hc : c.udp_initialized_ = false)
    (hn : is_connected w = true) (hb : (udp.begin c.port_ w).1 = true) :
    c.loop is_connected udp w =
      LoopResult.after [Call.is_connected true, Call.begin c.port_ true]
        (UdpserverComponent.loop_receive udp { c with udp_initialized_ := true }
          (udp.begin c.port_ w).2) := by
  unfold UdpserverComponent.loop
  rw [if_pos hc, if_neg (by simp [hn])]
  rcases hbw : udp.begin c.port_ w with ⟨b, w1⟩
  rw [hbw] at hb
  simp only at hb
  subst hb
  rfl

theorem loop_receive_returned {ω : Type} (udp : WiFiUDP ω) (c c1 : UdpserverComponent)
    (w w1 : ω) (log : List Call) (h : c.loop_receive udp w = .returned c1 w1 log) :
    c1 = c := by
  rcases loop_receive_shape udp c w with ⟨p, v, _, hr⟩ | ⟨p, n, len, buf, v, _, _, _, hr⟩ |
    ⟨p, n, w0, len, buf, v, ip1, _, _, _, _, _, hr⟩ |
    ⟨p, n, w0, len, buf, v, ip1, port, _, _, _, _, _, hr⟩
  all_goals
    rw [hr] at h
    injection h with h1 _ _
    exact h1.symm

/-- The entries of the log of lines 123-160: one poll first, then at most one read, then at
most one store into the buffer followed by one address check, then trigger invocations and
transmission calls. -/
theorem loop_receive_log {ω : Type} (udp : WiFiUDP ω) (c : UdpserverComponent) (w : ω) :
    ∃ p tail, (c.loop_receive udp w).log = Call.parsePacket p :: tail ∧
      (tail = [] ∨ ∃ n len buf rest, tail = Call.read n len buf :: rest ∧
        (rest = [] ∨ ∃ k ip ok dispatch,
          rest = Call.store k :: Call.is_ip_allowed ip ok :: dispatch ∧
          ∀ e ∈ dispatch, e.is_send = true ∨ e.is_trigger = true)) := by
  rcases loop_receive_shape udp c w with ⟨p, v, _, hr⟩ | ⟨p, n, len, buf, v, _, _, _, hr⟩ |
    ⟨p, n, w0, len, buf, v, ip1, _, _, _, _, _, hr⟩ |
    ⟨p, n, w0, len, buf, v, ip1, port, _, _, _, _, _, hr⟩
  · exact ⟨p, [], by rw [hr]; rfl, Or.inl rfl⟩
  · exact ⟨p, _, by rw [hr]; rfl, Or.inr ⟨n, len, buf, [], rfl, Or.inl rfl⟩⟩
  · exact ⟨p, _, by rw [hr]; rfl, Or.inr ⟨n, len, buf.val, _, rfl,
      Or.inr ⟨_, ip1, false, [], rfl, by simp⟩⟩⟩
  · refine ⟨p, _, by rw [hr]; rfl, Or.inr ⟨n, len, buf.val, _, rfl,
      Or.inr ⟨_, ip1, true, _, rfl, ?_⟩⟩⟩
    intro e he
    rcases process_log udp c _ _ _ _ _ e he with hs | ⟨i, hi⟩
    · exact Or.inl hs
    · exact Or.inr (by rw [hi]; rfl)

theorem loop_receive_no_begin {ω : Type} (udp : WiFiUDP ω) (c : UdpserverComponent) (w : ω) :
    ∀ e ∈ (c.loop_receive udp w).log, e.is_begin = false := by
  obtain ⟨p, tail, hlog, htail⟩ := loop_receive_log udp c w
  rw [hlog]
  intro e he
  rcases List.mem_cons.mp he with rfl | he
  · rfl
  rcases htail with rfl | ⟨n, len, buf, rest, rfl, hrest⟩
  · cases he
  rcases List.mem_cons.mp he with rfl | he
  · rfl
  rcases hrest with rfl | ⟨k, ip, ok, dispatch, rfl, hd⟩
  · cases he
  rcases List.mem_cons.mp he with rfl | he
  · rfl
  rcases List.mem_cons.mp he with rfl | he
  · rfl
  rcases hd e he with h | h
  · cases e <;> simp_all [Call.is_send, Call.is_begin]
  · cases e <;> simp_all [Call.is_trigger, Call.is_begin]

theorem after_returned {ω : Type} (earlier : List Call) (r : LoopResult ω)
    (c1 : UdpserverComponent) (w1 : ω) (log : List Call)
    (h : LoopResult.after earlier r = .returned c1 w1 log) :
    ∃ log1, r = .returned c1 w1 log1 ∧ log = earlier ++ log1 := by
  cases r with
  | returned c2 w2 log2 =>
    simp only [LoopResult.after, LoopResult.returned.injEq] at h
    obtain ⟨rfl, rfl, rfl⟩ := h
    exact ⟨log2, rfl, rfl⟩
  | undefined log2 => simp [LoopResult.after] at h

theorem is_begin_of_is_begin_ok (e : Call) (h : e.is_begin_ok = true) : e.is_begin = true := by
  cases e <;> simp_all [Call.is_begin_ok, Call.is_begin]

/-- A call that starts bound makes no bind attempt and returns bound. -/
theorem loop_bound_no_begin {ω : Type} (is_connected : ω → Bool) (udp : WiFiUDP ω)
    (c : UdpserverComponent) (w : ω) (hc : c.udp_initialized_ = true) :
    (∀ e ∈ (c.loop is_connected udp w).log, e.is_begin = false) ∧
      ∀ c1 w1 log, c.loop is_connected udp w = .returned c1 w1 log → c1 = c := by
  rw [loop_of_bound is_connected udp c w hc]
  exact ⟨loop_receive_no_begin udp c w, fun c1 w1 log h => loop_receive_returned udp c c1 w w1 log h⟩

/-- A call whose log holds a successful bind returns bound. -/
theorem loop_bound_after_begin_ok {ω : Type} (is_connected : ω → Bool) (udp : WiFiUDP ω)
    (c c1 : UdpserverComponent) (w w1 : ω) (log : List Call) (p : Nat)
    (hp : Call.begin p true ∈ (c.loop is_connected udp w).log)
    (hr : c.loop is_connected udp w = .returned c1 w1 log) :
    c1.udp_initialized_ = true := by
  by_cases hc : c.udp_initialized_ = true
  · have := (loop_bound_no_begin is_connected udp c w hc).1 _ hp
    simp [Call.is_begin] at this
  · have hc' : c.udp_initialized_ = false := by simpa using hc
    by_cases hn : is_connected w = true
    · by_cases hb : (udp.begin c.port_ w).1 = true
      · rw [loop_of_bind_ok is_connected udp c w hc' hn hb] at hr
        obtain ⟨log1, hr1, _⟩ := after_returned _ _ _ _ _ hr
        rw [loop_receive_returned udp _ c1 _ w1 log1 hr1]
      · have hb' : (udp.begin c.port_ w).1 = false := by simpa using hb
        rw [loop_of_bind_failed is_connected udp c w hc' hn hb'] at hp
        simp [LoopResult.log] at hp
    · have hn' : is_connected w = false := by simpa using hn
      rw [loop_of_not_ready is_connected udp c w hc' hn'] at hp
      simp [LoopResult.log] at hp

/-- The bind attempts of one call: none when the call starts bound or the network is not
ready, exactly one otherwise. -/
theorem loop_begin_attempts {ω : Type} (is_connected : ω → Bool) (udp : WiFiUDP ω)
    (c : UdpserverComponent) (w : ω) :
    (c.loop is_connected udp w).log.filter Call.is_begin =
      if c.udp_initialized_ = false ∧ is_connected w = true then
        [Call.begin c.port_ (udp.begin c.port_ w).1]
      else [] := by
  have hrecv : ∀ (c2 : UdpserverComponent) (w2 : ω),
      (c2.loop_receive udp w2).log.filter Call.is_begin = [] := by
    intro c2 w2
    rw [List.filter_eq_nil_iff]
    intro e he
    simp [loop_receive_no_begin udp c2 w2 e he]
  by_cases hc : c.udp_initialized_ = true
  · rw [loop_of_bound is_connected udp c w hc, hrecv, if_neg (by simp [hc])]
  · have hc' : c.udp_initialized_ = false := by simpa using hc
    by_cases hn : is_connected w = true
    · rw [if_pos ⟨hc', hn⟩]
      by_cases hb : (udp.begin c.port_ w).1 = true
      · rw [loop_of_bind_ok is_connected udp c w hc' hn hb, log_after, List.filter_append,
          hrecv, hb]
        rfl
      · have hb' : (udp.begin c.port_ w).1 = false := by simpa using hb
        rw [loop_of_bind_failed is_connected udp c w hc' hn hb', hb']
        rfl
    · have hn' : is_connected w = false := by simpa using hn
      rw [loop_of_not_ready is_connected udp c w hc' hn', if_neg (by simp [hn'])]
      rfl

/-! ### Runs -/

theorem run_cons_returned {ω : Type} (is_connected : ω → Bool) (udp : WiFiUDP ω)
    (step : ω → ω) (steps : List (ω → ω)) (c c1 : UdpserverComponent) (w w1 : ω)
    (log : List Call) (h : c.loop is_connected udp (step w) = .returned c1 w1 log) :
    run is_connected udp (step :: steps) c w =
      .returned c1 w1 log :: run is_connected udp steps c1 w1 := by
  rw [run, h]

theorem run_cons_undefined {ω : Type} (is_connected : ω → Bool) (udp : WiFiUDP ω)
    (step : ω → ω) (steps : List (ω → ω)) (c : UdpserverComponent) (w : ω)
    (log : List Call) (h : c.loop is_connected udp (step w) = .undefined log) :
    run is_connected udp (step :: steps) c w = [.undefined log] := by
  rw [run, h]

theorem run_bound_no_begin {ω : Type} (is_connected : ω → Bool) (udp : WiFiUDP ω)
    (steps : List (ω → ω)) (c : UdpserverComponent) (w : ω)
    (hc : c.udp_initialized_ = true) :
    ∀ r ∈ run is_connected udp steps c w, ∀ e ∈ r.log, e.is_begin = false := by
  induction steps generalizing w with
  | nil => intro r hr; simp [run] at hr
  | cons step steps ih =>
    intro r hr
    have hloop := loop_bound_no_begin is_connected udp c (step w) hc
    rcases hl : c.loop is_connected udp (step w) with ⟨c1, w1, log⟩ | ⟨log⟩
    · rw [run_cons_returned is_connected udp step steps c c1 w w1 log hl] at hr
      rcases List.mem_cons.mp hr with rfl | hr
      · rw [← hl]; exact hloop.1
      · rw [hloop.2 c1 w1 log hl] at hr
        exact ih w1 r hr
    · rw [run_cons_undefined is_connected udp step steps c w log hl] at hr
      rw [List.mem_singleton.mp hr, ← hl]
      exact hloop.1

theorem run_no_rebind {ω : Type} (is_connected : ω → Bool) (udp : WiFiUDP ω)
    (steps : List (ω → ω)) (c : UdpserverComponent) (w : ω) :
    (run is_connected udp steps c w).Pairwise (fun earlier later =>
      (∃ p, Call.begin p true ∈ earlier.log) → ∀ e ∈ later.log, e.is_begin = false) := by
  induction steps generalizing c w with
  | nil => simp [run]
  | cons step steps ih =>
    rcases hl : c.loop is_connected udp (step w) with ⟨c1, w1, log⟩ | ⟨log⟩
    · rw [run_cons_returned is_connected udp step steps c c1 w w1 log hl]
      refine List.pairwise_cons.mpr ⟨?_, ih c1 w1⟩
      rintro later hlater ⟨p, hp⟩
      have hbound : c1.udp_initialized_ = true :=
        loop_bound_after_begin_ok is_connected udp c c1 (step w) w1 log p (by rw [hl]; exact hp)
          hl
      exact run_bound_no_begin is_connected udp steps c1 w1 hbound later hlater
    · rw [run_cons_undefined is_connected udp step steps c w log hl]
      exact List.pairwise_singleton _ _

theorem loop_begin_ok_count {ω : Type} (is_connected : ω → Bool) (udp : WiFiUDP ω)
    (c : UdpserverComponent) (w : ω) :
    (c.loop is_connected udp w).log.countP Call.is_begin_ok ≤ 1 := by
  calc (c.loop is_connected udp w).log.countP Call.is_begin_ok
      ≤ (c.loop is_connected udp w).log.countP Call.is_begin :=
        List.countP_mono_left (fun e _ h => is_begin_of_is_begin_ok e h)
    _ = ((c.loop is_connected udp w).log.filter Call.is_begin).length :=
        List.countP_eq_length_filter _ _
    _ ≤ 1 := by
        rw [loop_begin_attempts]
        split_ifs <;> simp

theorem run_bound_begin_ok_count {ω : Type} (is_connected : ω → Bool) (udp : WiFiUDP ω)
    (steps : List (ω → ω)) (c : UdpserverComponent) (w : ω)
    (hc : c.udp_initialized_ = true) :
    ((run is_connected udp steps c w).map
      (fun r => r.log.countP Call.is_begin_ok)).sum = 0 := by
  have hall := run_bound_no_begin is_connected udp steps c w hc
  generalize run is_connected udp steps c w = rs at hall
  induction rs with
  | nil => rfl
  | cons r rs ih =>
    have h0 : r.log.countP Call.is_begin_ok = 0 := by
      rw [List.countP_eq_zero]
      intro e he hok
      have := hall r (List.mem_cons_self _ _) e he
      rw [is_begin_of_is_begin_ok e hok] at this
      cases this
    rw [List.map_cons, List.sum_cons, h0, Nat.zero_add]
    exact ih (fun r' hr' => hall r' (List.mem_cons_of_mem _ hr'))

theorem run_begin_ok_count {ω : Type} (is_connected : ω → Bool) (udp : WiFiUDP ω)
    (steps : List (ω → ω)) (c : UdpserverComponent) (w : ω) :
    ((run is_connected udp steps c w).map
      (fun r => r.log.countP Call.is_begin_ok)).sum ≤ 1 := by
  induction steps generalizing c w with
  | nil => simp [run]
  | cons step steps ih =>
    have hcount := loop_begin_ok_count is_connected udp c (step w)
    rcases hl : c.loop is_connected udp (step w) with ⟨c1, w1, log⟩ | ⟨log⟩
    · rw [run_cons_returned is_connected udp step steps c c1 w w1 log hl, List.map_cons,
        List.sum_cons]
      rw [hl] at hcount
      simp only [LoopResult.log] at hcount
      show log.countP Call.is_begin_ok + _ ≤ 1
      by_cases h0 : log.countP Call.is_begin_ok = 0
      · rw [h0, Nat.zero_add]; exact ih c1 w1
      · obtain ⟨e, he, hok⟩ := List.countP_pos_iff.mp (Nat.pos_of_ne_zero h0)
        have hbound : c1.udp_initialized_ = true := by
          cases e with
          | begin p ok =>
            cases ok with
            | true =>
              exact loop_bound_after_begin_ok is_connected udp c c1 (step w) w1 log p
                (by rw [hl]; exact he) hl
            | false => simp [Call.is_begin_ok] at hok
          | _ => simp [Call.is_begin_ok] at hok
        rw [run_bound_begin_ok_count is_connected udp steps c1 w1 hbound]
        exact hcount
    · rw [run_cons_undefined is_connected udp step steps c w log hl]
      rw [hl] at hcount
      simpa using hcount

theorem run_head {ω : Type} (is_connected : ω → Bool) (udp : WiFiUDP ω) (step : ω → ω)
    (steps : List (ω → ω)) (c : UdpserverComponent) (w : ω) :
    (run is_connected udp (step :: steps) c w)[0]? = some (c.loop is_connected udp (step w)) := by
  rcases hl : c.loop is_connected udp (step w) with ⟨c1, w1, log⟩ | ⟨log⟩
  · rw [run_cons_returned is_connected udp step steps c c1 w w1 log hl]
    exact List.getElem?_cons_zero
  · rw [run_cons_undefined is_connected udp step steps c w log hl]
    exact List.getElem?_cons_zero

theorem run_first_ready_binds {ω : Type} (is_connected : ω → Bool) (udp : WiFiUDP ω)
    (pre : List (ω → ω)) (step : ω → ω) (post : List (ω → ω)) (c : UdpserverComponent) (w : ω)
    (hc : c.udp_initialized_ = false)
    (hpre : ∀ j, j < pre.length → is_connected (world_after (pre.take (j + 1)) w) = false)
    (hready : is_connected (world_after (pre ++ [step]) w) = true) :
    ∃ r, (run is_connected udp (pre ++ step :: post) c w)[pre.length]? = some r ∧
      (r.log.filter Call.is_begin).length = 1 := by
  induction pre generalizing w with
  | nil =>
    refine ⟨_, run_head is_connected udp step post c w, ?_⟩
    rw [loop_begin_attempts, if_pos ⟨hc, hready⟩]
    rfl
  | cons s pre ih =>
    have h0 : is_connected (s w) = false := hpre 0 (Nat.succ_pos _)
    have hrun := run_cons_returned is_connected udp s (pre ++ step :: post) c c w (s w) _
      (loop_of_not_ready is_connected udp c (s w) hc h0)
    obtain ⟨r, hr, hlen⟩ := ih (s w) (fun j hj => hpre (j + 1) (Nat.succ_lt_succ hj)) hready
    refine ⟨r, ?_, hlen⟩
    rw [List.cons_append, hrun, List.length_cons, List.getElem?_cons_succ]
    exact hr

/-- C12: for every run of `loop()` calls and every behaviour of the readiness query and the
socket: once a call has made a successful bind (`udp.begin` returning true) no later call
attempts a bind; at most one bind attempt succeeds over the whole run; and, starting
unbound, the first call made when the network is ready (every call before it found the
network not ready) attempts exactly one bind. -/
theorem bind_at_most_once {ω : Type} (is_connected : ω → Bool) (udp : WiFiUDP ω)
    (steps : List (ω → ω)) (c : UdpserverComponent) (w : ω) :
    (run is_connected udp steps c w).Pairwise (fun earlier later =>
        (∃ p, Call.begin p true ∈ earlier.log) → ∀ e ∈ later.log, e.is_begin = false) ∧
      ((run is_connected udp steps c w).map
        (fun r => r.log.countP Call.is_begin_ok)).sum ≤ 1 ∧
      ∀ pre step post, steps = pre ++ step :: post → c.udp_initialized_ = false →
        (∀ j, j < pre.length → is_connected (world_after (pre.take (j + 1)) w) = false) →
        is_connected (world_after (pre ++ [step]) w) = true →
        ∃ r, (run is_connected udp steps c w)[pre.length]? = some r ∧
          (r.log.filter Call.is_begin).length = 1 := by
  refine ⟨run_no_rebind is_connected udp steps c w, run_begin_ok_count is_connected udp steps c w,
    ?_⟩
  rintro pre step post rfl hc hpre hready
  exact run_first_ready_binds is_connected udp pre step post c w hc hpre hready

/-- C12 at concrete inputs: the guarded component, unbound, with a datagram pending; the
link is down at the first call, comes up before the second, and a third call follows. -/
theorem bind_at_most_once_witness :
    (([id, sim_link_up, id] : List (SimWorld → SimWorld)) = [id] ++ sim_link_up :: [id] ∧
      guarded_component.udp_initialized_ = false ∧
      (∀ j, j < ([id] : List (SimWorld → SimWorld)).length →
        sim_is_connected (world_after (([id] : List (SimWorld → SimWorld)).take (j + 1))
          (sim_world_offline [light_on_from 5])) = false) ∧
      sim_is_connected (world_after ([id] ++ [sim_link_up])
        (sim_world_offline [light_on_from 5])) = true) ∧
    ∃ r, (run sim_is_connected sim_udp [id, sim_link_up, id] guarded_component
        (sim_world_offline [light_on_from 5]))[([id] : List (SimWorld → SimWorld)).length]?
          = some r ∧
      (r.log.filter Call.is_begin).length = 1 :=
  have hpre : ∀ j, j < ([id] : List (SimWorld → SimWorld)).length →
      sim_is_connected (world_after (([id] : List (SimWorld → SimWorld)).take (j + 1))
        (sim_world_offline [light_on_from 5])) = false := by
    intro j hj
    have hj0 : j = 0 := by simpa using hj
    subst hj0
    rfl
  ⟨⟨rfl, rfl, hpre, rfl⟩,
    (bind_at_most_once sim_is_connected sim_udp [id, sim_link_up, id] guarded_component
      (sim_world_offline [light_on_from 5])).2.2 [id] sim_link_up [id] rfl rfl hpre rfl⟩

/-! ### After a failed bind -/

theorem loop_component_cases {ω : Type} (is_connected : ω → Bool) (udp : WiFiUDP ω)
    (c c1 : UdpserverComponent) (w w1 : ω) (log : List Call)
    (h : c.loop is_connected udp w = .returned c1 w1 log) :
    c1 = c ∨ c1 = c.mark_failed ∨ c1 = { c with udp_initialized_ := true } := by
  by_cases hc : c.udp_initialized_ = true
  · exact Or.inl ((loop_bound_no_begin is_connected udp c w hc).2 c1 w1 log h)
  · have hc' : c.udp_initialized_ = false := by simpa using hc
    by_cases hn : is_connected w = true
    · by_cases hb : (udp.begin c.port_ w).1 = true
      · rw [loop_of_bind_ok is_connected udp c w hc' hn hb] at h
        obtain ⟨log1, hr1, _⟩ := after_returned _ _ _ _ _ h
        exact Or.inr (Or.inr (loop_receive_returned udp _ c1 _ w1 log1 hr1))
      · have hb' : (udp.begin c.port_ w).1 = false := by simpa using hb
        rw [loop_of_bind_failed is_connected udp c w hc' hn hb'] at h
        injection h with h1 _ _
        exact Or.inr (Or.inl h1.symm)
    · have hn' : is_connected w = false := by simpa using hn
      rw [loop_of_not_ready is_connected udp c w hc' hn'] at h
      injection h with h1 _ _
      exact Or.inl h1.symm

theorem run_failed_stays {ω : Type} (is_connected : ω → Bool) (udp : WiFiUDP ω)
    (steps : List (ω → ω)) (c : UdpserverComponent) (w : ω) (hf : c.failed_ = true) :
    ∀ r ∈ run is_connected udp steps c w, r.failed ≠ some false := by
  induction steps generalizing c w with
  | nil => intro r hr; simp [run] at hr
  | cons step steps ih =>
    intro r hr
    rcases hl : c.loop is_connected udp (step w) with ⟨c1, w1, log⟩ | ⟨log⟩
    · have hf1 : c1.failed_ = true := by
        rcases loop_component_cases is_connected udp c c1 (step w) w1 log hl with h | h | h
        · rw [h]; exact hf
        · rw [h]; rfl
        · rw [h]; exact hf
      rw [run_cons_returned is_connected udp step steps c c1 w w1 log hl] at hr
      rcases List.mem_cons.mp hr with rfl | hr
      · simp [LoopResult.failed, hf1]
      · exact ih c1 w1 hf1 r hr
    · rw [run_cons_undefined is_connected udp step steps c w log hl] at hr
      rw [List.mem_singleton.mp hr]
      simp [LoopResult.failed]

set_option maxRecDepth 100000 in
/-- C13 (the claim as stated fails): the socket refuses the bind at the first call, which
marks the component failed; the second call, made when the socket can bind, attempts the
bind again, succeeds, receives the pending datagram, invokes the trigger and returns
bound. -/
theorem loop_after_failed_bind_counterexample :
    (run sim_is_connected sim_udp [id, sim_bind_ok] guarded_component
        (sim_world_unbindable [light_on_from 5])).map (fun r => r.log.filter Call.is_begin) =
      [[Call.begin 8888 false], [Call.begin 8888 true]] ∧
    (run sim_is_connected sim_udp [id, sim_bind_ok] guarded_component
        (sim_world_unbindable [light_on_from 5])).map
          (fun r => r.log.countP (fun e => decide (e = Call.mark_failed))) = [1, 0] ∧
    (run sim_is_connected sim_udp [id, sim_bind_ok] guarded_component
        (sim_world_unbindable [light_on_from 5])).map
          (fun r => r.log.countP Call.is_receive) = [0, 2] ∧
    (run sim_is_connected sim_udp [id, sim_bind_ok] guarded_component
        (sim_world_unbindable [light_on_from 5])).map (fun r => invocations r.log) =
      [[], [(0, ascii "LIGHT ON")]] ∧
    (run sim_is_connected sim_udp [id, sim_bind_ok] guarded_component
        (sim_world_unbindable [light_on_from 5])).map LoopResult.udp_initialized =
      [some false, some true] := by
  decide

/-- C13 (amended): a call in which the bind attempt fails (`udp.begin` returns false and
`mark_failed` is called) makes no receive and invokes no trigger, and returns with the
failed status set and the component still unbound; no later `loop()` call clears the failed
status; `loop()` does not test the failed status: a later call makes no bind attempt while
the network is not ready and exactly one bind attempt when it is ready. -/
theorem loop_after_failed_bind {ω : Type} (is_connected : ω → Bool) (udp : WiFiUDP ω)
    (c : UdpserverComponent) (w : ω) (hc : c.udp_initialized_ = false)
    (hn : is_connected w = true) (hb : (udp.begin c.port_ w).1 = false) :
    c.loop is_connected udp w = .returned c.mark_failed (udp.begin c.port_ w).2
        [Call.is_connected true, Call.begin c.port_ false, Call.mark_failed] ∧
      c.mark_failed.failed_ = true ∧ c.mark_failed.udp_initialized_ = false ∧
      (∀ steps w1, ∀ r ∈ run is_connected udp steps c.mark_failed w1, r.failed ≠ some false) ∧
      ∀ w1, (c.mark_failed.loop is_connected udp w1).log.filter Call.is_begin =
        if is_connected w1 = true then [Call.begin c.port_ (udp.begin c.port_ w1).1]
        else [] := by
  refine ⟨loop_of_bind_failed is_connected udp c w hc hn hb, rfl, hc,
    fun steps w1 => run_failed_stays is_connected udp steps c.mark_failed w1 rfl, ?_⟩
  intro w1
  rw [loop_begin_attempts]
  have hc1 : c.mark_failed.udp_initialized_ = false := hc
  simp only [hc1, true_and]
  rfl

/-- C13 (amended) at concrete inputs: the guarded component with the link up and a socket
that refuses to bind. -/
theorem loop_after_failed_bind_witness :
    (guarded_component.udp_initialized_ = false ∧
      sim_is_connected (sim_world_unbindable [light_on_from 5]) = true ∧
      (sim_udp.begin guarded_component.port_ (sim_world_unbindable [light_on_from 5])).1
        = false) ∧
    (guarded_component.loop sim_is_connected sim_udp (sim_world_unbindable [light_on_from 5]) =
        .returned guarded_component.mark_failed
          (sim_udp.begin guarded_component.port_ (sim_world_unbindable [light_on_from 5])).2
          [Call.is_connected true, Call.begin guarded_component.port_ false,
            Call.mark_failed] ∧
      guarded_component.mark_failed.failed_ = true ∧
      guarded_component.mark_failed.udp_initialized_ = false ∧
      (∀ steps w1, ∀ r ∈ run sim_is_connected sim_udp steps guarded_component.mark_failed w1,
        r.failed ≠ some false) ∧
      ∀ w1, (guarded_component.mark_failed.loop sim_is_connected sim_udp w1).log.filter
          Call.is_begin =
        if sim_is_connected w1 = true then
          [Call.begin guarded_component.port_ (sim_udp.begin guarded_component.port_ w1).1]
        else []) :=
  ⟨⟨rfl, rfl, rfl⟩, loop_after_failed_bind sim_is_connected sim_udp guarded_component
    (sim_world_unbindable [light_on_from 5]) rfl rfl rfl⟩

/-! ### Dispatch only when bound -/

theorem udp_initialized_after {ω : Type} (earlier : List Call) (r : LoopResult ω) :
    (LoopResult.after earlier r).udp_initialized = r.udp_initialized := by
  cases r <;> rfl

theorem loop_receive_udp_initialized {ω : Type} (udp : WiFiUDP ω) (c : UdpserverComponent)
    (w : ω) (hc : c.udp_initialized_ = true) :
    (c.loop_receive udp w).udp_initialized ≠ some false := by
  rcases hl : c.loop_receive udp w with ⟨c1, w1, log⟩ | ⟨log⟩
  · rw [loop_receive_returned udp c c1 w w1 log hl]
    simp [LoopResult.udp_initialized, hc]
  · simp [LoopResult.udp_initialized]

theorem loop_dispatch_bound {ω : Type} (is_connected : ω → Bool) (udp : WiFiUDP ω)
    (c : UdpserverComponent) (w : ω) (e : Call) (he : e ∈ (c.loop is_connected udp w).log)
    (hk : e.is_trigger = true ∨ e.is_receive = true) :
    (c.udp_initialized_ = true ∨ ∃ p, Call.begin p true ∈ (c.loop is_connected udp w).log) ∧
      (∀ p, Call.begin p false ∉ (c.loop is_connected udp w).log) ∧
      (c.loop is_connected udp w).udp_initialized ≠ some false := by
  by_cases hc : c.udp_initialized_ = true
  · refine ⟨Or.inl hc, ?_, ?_⟩
    · intro p hp
      have := (loop_bound_no_begin is_connected udp c w hc).1 _ hp
      simp [Call.is_begin] at this
    · rw [loop_of_bound is_connected udp c w hc]
      exact loop_receive_udp_initialized udp c w hc
  · have hc' : c.udp_initialized_ = false := by simpa using hc
    by_cases hn : is_connected w = true
    · by_cases hb : (udp.begin c.port_ w).1 = true
      · rw [loop_of_bind_ok is_connected udp c w hc' hn hb]
        refine ⟨Or.inr ⟨c.port_, by simp [log_after]⟩, ?_, ?_⟩
        · intro p hp
          rw [log_after] at hp
          rcases List.mem_append.mp hp with hp | hp
          · simp at hp
          · have := loop_receive_no_begin udp _ _ _ hp
            simp [Call.is_begin] at this
        · rw [udp_initialized_after]
          exact loop_receive_udp_initialized udp _ _ rfl
      · have hb' : (udp.begin c.port_ w).1 = false := by simpa using hb
        rw [loop_of_bind_failed is_connected udp c w hc' hn hb'] at he
        simp only [LoopResult.log, List.mem_cons, List.mem_singleton, List.not_mem_nil,
          or_false] at he
        rcases he with rfl | rfl | rfl <;> simp [Call.is_trigger, Call.is_receive] at hk
    · have hn' : is_connected w = false := by simpa using hn
      rw [loop_of_not_ready is_connected udp c w hc' hn'] at he
      simp only [LoopResult.log, List.mem_singleton] at he
      subst he
      simp [Call.is_trigger, Call.is_receive] at hk

theorem loop_bound_origin {ω : Type} (is_connected : ω → Bool) (udp : WiFiUDP ω)
    (c c1 : UdpserverComponent) (w w1 : ω) (log : List Call)
    (h : c.loop is_connected udp w = .returned c1 w1 log) (h1 : c1.udp_initialized_ = true) :
    c.udp_initialized_ = true ∨ ∃ p, Call.begin p true ∈ log := by
  by_cases hc : c.udp_initialized_ = true
  · exact Or.inl hc
  · have hc' : c.udp_initialized_ = false := by simpa using hc
    by_cases hn : is_connected w = true
    · by_cases hb : (udp.begin c.port_ w).1 = true
      · rw [loop_of_bind_ok is_connected udp c w hc' hn hb] at h
        obtain ⟨log1, _, hlog⟩ := after_returned _ _ _ _ _ h
        exact Or.inr ⟨c.port_, by rw [hlog]; simp⟩
      · have hb' : (udp.begin c.port_ w).1 = false := by simpa using hb
        rw [loop_of_bind_failed is_connected udp c w hc' hn hb'] at h
        injection h with h2 _ _
        rw [← h2] at h1
        exact Or.inl h1
    · have hn' : is_connected w = false := by simpa using hn
      rw [loop_of_not_ready is_connected udp c w hc' hn'] at h
      injection h with h2 _ _
      rw [← h2] at h1
      exact Or.inl h1

theorem run_dispatch_bound {ω : Type} (is_connected : ω → Bool) (udp : WiFiUDP ω)
    (steps : List (ω → ω)) (c : UdpserverComponent) (w : ω) (k : Nat) (r : LoopResult ω)
    (e : Call) (hr : (run is_connected udp steps c w)[k]? = some r) (he : e ∈ r.log)
    (hk : e.is_trigger = true ∨ e.is_receive = true) :
    (c.udp_initialized_ = true ∨ ∃ j r1 p, j ≤ k ∧
        (run is_connected udp steps c w)[j]? = some r1 ∧ Call.begin p true ∈ r1.log) ∧
      (∀ p, Call.begin p false ∉ r.log) ∧ r.udp_initialized ≠ some false := by
  induction steps generalizing c w k with
  | nil => simp [run] at hr
  | cons step steps ih =>
    cases k with
    | zero =>
      rw [run_head] at hr
      injection hr with hr
      subst hr
      obtain ⟨h1, h2, h3⟩ := loop_dispatch_bound is_connected udp c (step w) e he hk
      refine ⟨?_, h2, h3⟩
      rcases h1 with h1 | ⟨p, hp⟩
      · exact Or.inl h1
      · exact Or.inr ⟨0, _, p, Nat.le_refl _, run_head is_connected udp step steps c w, hp⟩
    | succ k =>
      rcases hl : c.loop is_connected udp (step w) with ⟨c1, w1, log⟩ | ⟨log⟩
      · rw [run_cons_returned is_connected udp step steps c c1 w w1 log hl] at hr ⊢
        rw [List.getElem?_cons_succ] at hr
        obtain ⟨h1, h2, h3⟩ := ih c1 w1 k hr
        refine ⟨?_, h2, h3⟩
        rcases h1 with h1 | ⟨j, r1, p, hj, hr1, hp⟩
        · rcases loop_bound_origin is_connected udp c c1 (step w) w1 log hl h1 with h | ⟨p, hp⟩
          · exact Or.inl h
          · exact Or.inr ⟨0, _, p, Nat.zero_le _, List.getElem?_cons_zero, hp⟩
        · exact Or.inr ⟨j + 1, r1, p, Nat.succ_le_succ hj,
            by rw [List.getElem?_cons_succ]; exact hr1, hp⟩
      · rw [run_cons_undefined is_connected udp step steps c w log hl] at hr
        simp at hr

/-- C14: for every run of `loop()` calls that starts unbound, a call that invokes a trigger
or receives (`parsePacket`, `read`) is a call during which the server is bound: a bind
succeeded in this or an earlier call, the call holds no failed bind attempt, and it does not
return with `udp_initialized_` false. -/
theorem dispatch_only_when_bound {ω : Type} (is_connected : ω → Bool) (udp : WiFiUDP ω)
    (steps : List (ω → ω)) (c : UdpserverComponent) (w : ω) (k : Nat) (r : LoopResult ω)
    (e : Call) (h0 : c.udp_initialized_ = false)
    (hr : (run is_connected udp steps c w)[k]? = some r) (he : e ∈ r.log)
    (hk : e.is_trigger = true ∨ e.is_receive = true) :
    (∃ j r1 p, j ≤ k ∧ (run is_connected udp steps c w)[j]? = some r1 ∧
        Call.begin p true ∈ r1.log) ∧
      (∀ p, Call.begin p false ∉ r.log) ∧ r.udp_initialized ≠ some false := by
  obtain ⟨h1, h2, h3⟩ := run_dispatch_bound is_connected udp steps c w k r e hr he hk
  refine ⟨?_, h2, h3⟩
  rcases h1 with h1 | h1
  · rw [h0] at h1; cases h1
  · exact h1

set_option maxRecDepth 100000 in
/-- C14 at concrete inputs: the guarded component, unbound, with the link up and the
datagram "LIGHT ON" from the allowed address pending; the first call binds and invokes the
trigger. -/
theorem dispatch_only_when_bound_witness :
    (guarded_component.udp_initialized_ = false ∧
      (run sim_is_connected sim_udp [id] guarded_component (sim_world [light_on_from 5]))[0]? =
        some (guarded_component.loop sim_is_connected sim_udp
          (id (sim_world [light_on_from 5]))) ∧
      Call.trigger 0 (ascii "LIGHT ON") ⟨some (), ascii "10.0.0.5", 4000⟩ ∈
        (guarded_component.loop sim_is_connected sim_udp
          (id (sim_world [light_on_from 5]))).log ∧
      ((Call.trigger 0 (ascii "LIGHT ON") ⟨some (), ascii "10.0.0.5", 4000⟩).is_trigger = true ∨
        (Call.trigger 0 (ascii "LIGHT ON")
          ⟨some (), ascii "10.0.0.5", 4000⟩).is_receive = true)) ∧
    ((∃ j r1 p, j ≤ 0 ∧
        (run sim_is_connected sim_udp [id] guarded_component
          (sim_world [light_on_from 5]))[j]? = some r1 ∧ Call.begin p true ∈ r1.log) ∧
      (∀ p, Call.begin p false ∉ (guarded_component.loop sim_is_connected sim_udp
        (id (sim_world [light_on_from 5]))).log) ∧
      (guarded_component.loop sim_is_connected sim_udp
        (id (sim_world [light_on_from 5]))).udp_initialized ≠ some false) :=
  ⟨⟨rfl, run_head sim_is_connected sim_udp id [] guarded_component
        (sim_world [light_on_from 5]), by decide, Or.inl rfl⟩,
    dispatch_only_when_bound sim_is_connected sim_udp [id] guarded_component
      (sim_world [light_on_from 5]) 0 _
      (Call.trigger 0 (ascii "LIGHT ON") ⟨some (), ascii "10.0.0.5", 4000⟩) rfl
      (run_head sim_is_connected sim_udp id [] guarded_component (sim_world [light_on_from 5]))
      (by decide) (Or.inl rfl)⟩

/-! ## The reply context -/

theorem send_response_log_eq {ω : Type} (udp : WiFiUDP ω) (ctx : UDPContext)
    (data : StdString) (w : ω) :
    (ctx.send_response udp data w).2.2 =
      if ctx.udp_ = none then []
      else if (udp.beginPacket ctx.remote_ip_ ctx.remote_port_ w).1 = false then
        [Call.beginPacket ctx.remote_ip_ ctx.remote_port_ false]
      else
        [Call.beginPacket ctx.remote_ip_ ctx.remote_port_ true, Call.write data,
          Call.endPacket (ctx.send_response udp data w).1] := by
  unfold UDPContext.send_response
  cases ctx.udp_ with
  | none => rfl
  | some u =>
    simp only [if_false]
    rcases hb : udp.beginPacket ctx.remote_ip_ ctx.remote_port_ w with ⟨b, w1⟩
    cases b <;> simp

theorem send_response_result {ω : Type} (udp : WiFiUDP ω) (ctx : UDPContext)
    (data : StdString) (w : ω) :
    (ctx.send_response udp data w).1 = true ↔
      ctx.udp_ ≠ none ∧ (udp.beginPacket ctx.remote_ip_ ctx.remote_port_ w).1 = true ∧
        (udp.endPacket (udp.write data
          (udp.beginPacket ctx.remote_ip_ ctx.remote_port_ w).2)).1 = true := by
  unfold UDPContext.send_response
  cases ctx.udp_ with
  | none => simp
  | some u =>
    rcases hb : udp.beginPacket ctx.remote_ip_ ctx.remote_port_ w with ⟨b, w1⟩
    cases b <;> simp

/-- C15: for every payload, `send_response` makes at most one transmission attempt: no call
at all when the socket pointer is null, one `beginPacket` alone when `beginPacket` fails,
otherwise one `beginPacket`, one `write` of the payload and one `endPacket`, in that order
and without retry; it returns success if and only if the socket pointer is non-null,
`beginPacket` succeeds and `endPacket` succeeds. -/
theorem send_response_single_attempt {ω : Type} (udp : WiFiUDP ω) (ctx : UDPContext)
    (data : StdString) (w : ω) :
    (ctx.send_response udp data w).2.2 =
        (if ctx.udp_ = none then []
        else if (udp.beginPacket ctx.remote_ip_ ctx.remote_port_ w).1 = false then
          [Call.beginPacket ctx.remote_ip_ ctx.remote_port_ false]
        else
          [Call.beginPacket ctx.remote_ip_ ctx.remote_port_ true, Call.write data,
            Call.endPacket (ctx.send_response udp data w).1]) ∧
      ((ctx.send_response udp data w).1 = true ↔
        ctx.udp_ ≠ none ∧ (udp.beginPacket ctx.remote_ip_ ctx.remote_port_ w).1 = true ∧
          (udp.endPacket (udp.write data
            (udp.beginPacket ctx.remote_ip_ ctx.remote_port_ w).2)).1 = true) :=
  ⟨send_response_log_eq udp ctx data w, send_response_result udp ctx data w⟩

theorem send_response_log_target {ω : Type} (udp : WiFiUDP ω) (ctx : UDPContext)
    (data : StdString) (w : ω) (host : CString) (port : Nat) (r : Bool)
    (h : Call.beginPacket host port r ∈ (ctx.send_response udp data w).2.2) :
    host = ctx.remote_ip_ ∧ port = ctx.remote_port_ := by
  rw [send_response_log_eq] at h
  split_ifs at h
  · cases h
  · simp only [List.mem_singleton, Call.beginPacket.injEq] at h
    exact ⟨h.1, h.2.1⟩
  · simp only [List.mem_cons, List.mem_singleton, Call.beginPacket.injEq, List.not_mem_nil,
      or_false] at h
    rcases h with h | h | h
    · exact ⟨h.1, h.2.1⟩
    · cases h
    · cases h

theorem automation_run_log_target {ω : Type} (udp : WiFiUDP ω) (ctx : UDPContext)
    (a : Automation) (w : ω) (host : CString) (port : Nat) (r : Bool)
    (h : Call.beginPacket host port r ∈ (a.run udp ctx w).2) :
    host = ctx.remote_ip_ ∧ port = ctx.remote_port_ := by
  induction a generalizing w with
  | done => simp [Automation.run] at h
  | send_response data next ih =>
    simp only [Automation.run, List.mem_append] at h
    rcases h with h | h
    · exact send_response_log_target udp ctx data w host port r h
    · exact ih _ _ h

theorem process_triggers_log_target {ω : Type} (udp : WiFiUDP ω) (data_str : StdString)
    (udp_ctx : UDPContext) (ts : List OnStringDataTrigger) (index : Nat) (w : ω)
    (host : CString) (port : Nat) (r : Bool)
    (h : Call.beginPacket host port r ∈ (process_triggers udp data_str udp_ctx index ts w).2) :
    host = udp_ctx.remote_ip_ ∧ port = udp_ctx.remote_port_ := by
  induction ts generalizing index w with
  | nil => simp [process_triggers] at h
  | cons t rest ih =>
    unfold process_triggers at h
    by_cases hm : t.matches_filter data_str = true
    · simp only [hm, if_true, List.mem_cons, List.mem_append] at h
      rcases h with h | h | h
      · cases h
      · exact automation_run_log_target udp udp_ctx _ w host port r h
      · exact ih _ _ h
    · simp only [hm, if_false] at h
      exact ih _ _ h

/-- C16: for every packet dispatched by `process_` with source address `remote_ip` and
source port `remote_port`, every trigger invoked receives a reply context whose
`get_remote_ip()` is that address and whose `get_remote_port()` is that port, on the
component's own socket; every `beginPacket` made during the dispatch is addressed to that
address and port; and a `send_response` on any context addresses its `beginPacket` to the
address and port of the context. -/
theorem process_reply_context {ω : Type} (udp : WiFiUDP ω) (c : UdpserverComponent)
    (buf : List Byte) (len : Nat) (remote_ip : CString) (remote_port : Nat) (w : ω) :
    (∀ i data ctx, Call.trigger i data ctx ∈ (c.process_ udp buf len remote_ip remote_port w).2 →
        ctx.get_remote_ip = remote_ip ∧ ctx.get_remote_port = remote_port ∧
          ctx.udp_ = some ()) ∧
      (∀ host port r,
        Call.beginPacket host port r ∈ (c.process_ udp buf len remote_ip remote_port w).2 →
          host = remote_ip ∧ port = remote_port) ∧
      ∀ (ctx : UDPContext) (data : StdString) (w1 : ω) (host : CString) (port : Nat) (r : Bool),
        Call.beginPacket host port r ∈ (ctx.send_response udp data w1).2.2 →
          host = ctx.get_remote_ip ∧ port = ctx.get_remote_port := by
  refine ⟨?_, ?_, ?_⟩
  · intro i data ctx h
    rcases process_log udp c buf len remote_ip remote_port w _ h with hs | ⟨j, hj⟩
    · simp [Call.is_send] at hs
    · injection hj with _ _ hctx
      rw [hctx]
      exact ⟨rfl, rfl, rfl⟩
  · intro host port r h
    exact process_triggers_log_target udp _ _ c.string_triggers_ 0 w host port r h
  · intro ctx data w1 host port r h
    exact send_response_log_target udp ctx data w1 host port r h

/-- C16 at the inputs of the claim: a trigger with mode "equals" and pattern "PING" that
replies "PONG", and the packet "PING" from `10.0.0.7`, port 5000. -/
theorem process_reply_context_witness :
    (Call.trigger 0 (ascii "PING") ⟨some (), ascii "10.0.0.7", 5000⟩ ∈
        (ping_component.process_ sim_udp (ascii "PING") 4 (ascii "10.0.0.7") 5000
          (sim_world [])).2 ∧
      Call.beginPacket (ascii "10.0.0.7") 5000 true ∈
        (ping_component.process_ sim_udp (ascii "PING") 4 (ascii "10.0.0.7") 5000
          (sim_world [])).2) ∧
    ((UDPContext.get_remote_ip ⟨some (), ascii "10.0.0.7", 5000⟩ = ascii "10.0.0.7" ∧
        UDPContext.get_remote_port ⟨some (), ascii "10.0.0.7", 5000⟩ = 5000 ∧
        UDPContext.udp_ ⟨some (), ascii "10.0.0.7", 5000⟩ = some ()) ∧
      (ascii "10.0.0.7" = ascii "10.0.0.7" ∧ 5000 = 5000)) :=
  ⟨⟨by decide, by decide⟩,
    (process_reply_context sim_udp ping_component (ascii "PING") 4 (ascii "10.0.0.7") 5000
      (sim_world [])).1 0 (ascii "PING") ⟨some (), ascii "10.0.0.7", 5000⟩ (by decide),
    (process_reply_context sim_udp ping_component (ascii "PING") 4 (ascii "10.0.0.7") 5000
      (sim_world [])).2.1 (ascii "10.0.0.7") 5000 true (by decide)⟩

/-! ## Polling -/

theorem requested_eq_min (p : Int) :
    (if p.toNat > MAX_PACKET_SIZE then (MAX_PACKET_SIZE : Int) else p).toNat =
      min p.toNat MAX_PACKET_SIZE := by
  split_ifs with h
  · rw [Int.toNat_ofNat]; omega
  · omega

theorem loop_receive_nothing_pending {ω : Type} (udp : WiFiUDP ω) (c : UdpserverComponent)
    (w : ω) (h : (udp.parsePacket w).1 ≤ 0) :
    c.loop_receive udp w =
      .returned c (udp.parsePacket w).2 [Call.parsePacket (udp.parsePacket w).1] := by
  unfold UdpserverComponent.loop_receive
  simp only
  rw [if_neg (not_lt.mpr h)]

theorem loop_receive_read_failed {ω : Type} (udp : WiFiUDP ω) (c : UdpserverComponent)
    (w : ω) (h1 : 0 < (udp.parsePacket w).1)
    (h2 : (udp.read (min (udp.parsePacket w).1.toNat MAX_PACKET_SIZE)
      (udp.parsePacket w).2).1.1 ≤ 0) :
    c.loop_receive udp w =
      .returned c
        (udp.read (min (udp.parsePacket w).1.toNat MAX_PACKET_SIZE) (udp.parsePacket w).2).2
        [Call.parsePacket (udp.parsePacket w).1,
          Call.read (min (udp.parsePacket w).1.toNat MAX_PACKET_SIZE)
            (udp.read (min (udp.parsePacket w).1.toNat MAX_PACKET_SIZE)
              (udp.parsePacket w).2).1.1
            (udp.read (min (udp.parsePacket w).1.toNat MAX_PACKET_SIZE)
              (udp.parsePacket w).2).1.2.val] := by
  unfold UdpserverComponent.loop_receive
  simp only
  rw [if_pos h1, requested_eq_min, if_neg (not_lt.mpr h2)]

theorem dispatch_count_zero (q : Call → Bool) (dispatch : List Call)
    (hd : ∀ e ∈ dispatch, e.is_send = true ∨ e.is_trigger = true)
    (hq : ∀ e : Call, q e = true → e.is_send = false ∧ e.is_trigger = false) :
    dispatch.countP q = 0 := by
  rw [List.countP_eq_zero]
  intro e he hqe
  obtain ⟨h1, h2⟩ := hq e hqe
  rcases hd e he with h | h
  · rw [h1] at h; cases h
  · rw [h2] at h; cases h

theorem loop_receive_poll_count {ω : Type} (udp : WiFiUDP ω) (c : UdpserverComponent)
    (w : ω) :
    (c.loop_receive udp w).log.countP Call.is_poll ≤ 1 ∧
      (c.loop_receive udp w).log.countP Call.is_read ≤ 1 := by
  have hpoll : ∀ e : Call, e.is_poll = true → e.is_send = false ∧ e.is_trigger = false := by
    intro e h; cases e <;> simp_all [Call.is_poll, Call.is_send, Call.is_trigger]
  have hread : ∀ e : Call, e.is_read = true → e.is_send = false ∧ e.is_trigger = false := by
    intro e h; cases e <;> simp_all [Call.is_read, Call.is_send, Call.is_trigger]
  obtain ⟨p, tail, hlog, htail⟩ := loop_receive_log udp c w
  rw [hlog]
  rcases htail with rfl | ⟨n, len, buf, rest, rfl, hrest⟩
  · simp [List.countP_cons, Call.is_poll, Call.is_read]
  rcases hrest with rfl | ⟨k, ip, ok, dispatch, rfl, hd⟩
  · simp [List.countP_cons, Call.is_poll, Call.is_read]
  · simp [List.countP_cons, Call.is_poll, Call.is_read,
      dispatch_count_zero Call.is_poll dispatch hd hpoll,
      dispatch_count_zero Call.is_read dispatch hd hread]

theorem loop_poll_count {ω : Type} (is_connected : ω → Bool) (udp : WiFiUDP ω)
    (c : UdpserverComponent) (w : ω) :
    (c.loop is_connected udp w).log.countP Call.is_poll ≤ 1 ∧
      (c.loop is_connected udp w).log.countP Call.is_read ≤ 1 := by
  by_cases hc : c.udp_initialized_ = true
  · rw [loop_of_bound is_connected udp c w hc]
    exact loop_receive_poll_count udp c w
  · have hc' : c.udp_initialized_ = false := by simpa using hc
    by_cases hn : is_connected w = true
    · by_cases hb : (udp.begin c.port_ w).1 = true
      · rw [loop_of_bind_ok is_connected udp c w hc' hn hb, log_after]
        simpa [List.countP_cons, Call.is_poll, Call.is_read] using
          loop_receive_poll_count udp { c with udp_initialized_ := true }
            (udp.begin c.port_ w).2
      · have hb' : (udp.begin c.port_ w).1 = false := by simpa using hb
        rw [loop_of_bind_failed is_connected udp c w hc' hn hb']
        simp [LoopResult.log, List.countP_cons, Call.is_poll, Call.is_read]
    · have hn' : is_connected w = false := by simpa using hn
      rw [loop_of_not_ready is_connected udp c w hc' hn']
      simp [LoopResult.log, List.countP_cons, Call.is_poll, Call.is_read]

/-- C17: for every bound state, a `loop()` call in which `parsePacket` reports no pending
datagram (size `<= 0`), or in which `read` returns a length `<= 0`, returns with the
component unchanged (not marked failed, still bound) after the poll (and the read) alone: no
trigger is invoked and nothing is sent; the next call polls again; and every `loop()` call,
bound or not, calls `parsePacket` at most once and `read` at most once. -/
theorem loop_idle_poll {ω : Type} (is_connected : ω → Bool) (udp : WiFiUDP ω)
    (c : UdpserverComponent) (w : ω) :
    (c.udp_initialized_ = true →
      ((udp.parsePacket w).1 ≤ 0 →
        c.loop is_connected udp w =
          .returned c (udp.parsePacket w).2 [Call.parsePacket (udp.parsePacket w).1]) ∧
      (0 < (udp.parsePacket w).1 →
        (udp.read (min (udp.parsePacket w).1.toNat MAX_PACKET_SIZE)
          (udp.parsePacket w).2).1.1 ≤ 0 →
        c.loop is_connected udp w =
          .returned c
            (udp.read (min (udp.parsePacket w).1.toNat MAX_PACKET_SIZE)
              (udp.parsePacket w).2).2
            [Call.parsePacket (udp.parsePacket w).1,
              Call.read (min (udp.parsePacket w).1.toNat MAX_PACKET_SIZE)
                (udp.read (min (udp.parsePacket w).1.toNat MAX_PACKET_SIZE)
                  (udp.parsePacket w).2).1.1
                (udp.read (min (udp.parsePacket w).1.toNat MAX_PACKET_SIZE)
                  (udp.parsePacket w).2).1.2.val]) ∧
      ∀ w1, ∃ p tail, (c.loop is_connected udp w1).log = Call.parsePacket p :: tail) ∧
    (c.loop is_connected udp w).log.countP Call.is_poll ≤ 1 ∧
    (c.loop is_connected udp w).log.countP Call.is_read ≤ 1 := by
  refine ⟨fun hc => ⟨?_, ?_, ?_⟩, loop_poll_count is_connected udp c w⟩
  · intro h
    rw [loop_of_bound is_connected udp c w hc]
    exact loop_receive_nothing_pending udp c w h
  · intro h1 h2
    rw [loop_of_bound is_connected udp c w hc]
    exact loop_receive_read_failed udp c w h1 h2
  · intro w1
    rw [loop_of_bound is_connected udp c w1 hc]
    obtain ⟨p, tail, hlog, _⟩ := loop_receive_log udp c w1
    exact ⟨p, tail, hlog⟩

/-- C17 at concrete inputs: the guarded component, bound, polls a socket with nothing
pending; and it polls a socket with a datagram pending whose `read` fails. -/
theorem loop_idle_poll_witness :
    (guarded_component_bound.udp_initialized_ = true ∧
      (sim_udp.parsePacket (sim_world [])).1 ≤ 0 ∧
      0 < (sim_udp_read_fails.parsePacket (sim_world [light_on_from 5])).1 ∧
      (sim_udp_read_fails.read
        (min (sim_udp_read_fails.parsePacket (sim_world [light_on_from 5])).1.toNat
          MAX_PACKET_SIZE)
        (sim_udp_read_fails.parsePacket (sim_world [light_on_from 5])).2).1.1 ≤ 0) ∧
    guarded_component_bound.loop sim_is_connected sim_udp (sim_world []) =
      .returned guarded_component_bound (sim_udp.parsePacket (sim_world [])).2
        [Call.parsePacket (sim_udp.parsePacket (sim_world [])).1] ∧
    guarded_component_bound.loop sim_is_connected sim_udp_read_fails
        (sim_world [light_on_from 5]) =
      .returned guarded_component_bound
        (sim_udp_read_fails.read
          (min (sim_udp_read_fails.parsePacket (sim_world [light_on_from 5])).1.toNat
            MAX_PACKET_SIZE)
          (sim_udp_read_fails.parsePacket (sim_world [light_on_from 5])).2).2
        [Call.parsePacket (sim_udp_read_fails.parsePacket (sim_world [light_on_from 5])).1,
          Call.read
            (min (sim_udp_read_fails.parsePacket (sim_world [light_on_from 5])).1.toNat
              MAX_PACKET_SIZE)
            (sim_udp_read_fails.read
              (min (sim_udp_read_fails.parsePacket (sim_world [light_on_from 5])).1.toNat
                MAX_PACKET_SIZE)
              (sim_udp_read_fails.parsePacket (sim_world [light_on_from 5])).2).1.1
            (sim_udp_read_fails.read
              (min (sim_udp_read_fails.parsePacket (sim_world [light_on_from 5])).1.toNat
                MAX_PACKET_SIZE)
              (sim_udp_read_fails.parsePacket (sim_world [light_on_from 5])).2).1.2.val] :=
  ⟨⟨rfl, by decide, by decide, by decide⟩,
    ((loop_idle_poll sim_is_connected sim_udp guarded_component_bound (sim_world [])).1
      rfl).1 (by decide),
    ((loop_idle_poll sim_is_connected sim_udp_read_fails guarded_component_bound
      (sim_world [light_on_from 5])).1 rfl).2.1 (by decide) (by decide)⟩

set_option maxRecDepth 100000 in
/-- C18 (defect of the code): with a pending datagram of exactly 1400 bytes, `parsePacket`
reports 1400, `read` is asked for 1400 bytes and returns `len = 1400`, which is at most the
requested size and not below `MAX_PACKET_SIZE`: the store `buffer[len] = 0` is made at
index 1400, outside `buffer[MAX_PACKET_SIZE]`, whose last index is 1399. -/
theorem loop_full_datagram_store_out_of_bounds :
    reads (open_component.loop sim_is_connected sim_udp
        (sim_world [long_datagram 1400])).log = [(1400, 1400)] ∧
      stores (open_component.loop sim_is_connected sim_udp
        (sim_world [long_datagram 1400])).log = [1400] ∧
      ¬ ((1400 : Nat) < MAX_PACKET_SIZE) := by
  decide

/-! ## The empty pattern -/

theorem matches_filter_of_empty (t : OnStringDataTrigger) (data : StdString)
    (h : t.text_filter_ = []) : t.matches_filter data = true := by
  unfold OnStringDataTrigger.matches_filter
  simp [h]

/-- C19: for every filter mode (recognized or not) and every text, `matches_filter` returns
true when the pattern is the empty string; so a trigger registered with the empty
`text_filter_` is invoked, with the text, for every packet that `process_` dispatches. -/
theorem empty_pattern_matches_everything {ω : Type} (udp : WiFiUDP ω) :
    (∀ (mode text : StdString) (act : StdString → UDPContext → Automation),
        OnStringDataTrigger.matches_filter ⟨[], mode, act⟩ text = true) ∧
      ∀ (c : UdpserverComponent) (buf : List Byte) (len : Nat) (remote_ip : CString)
        (remote_port : Nat) (w : ω) (i : Nat) (t : OnStringDataTrigger),
        c.string_triggers_[i]? = some t → t.text_filter_ = [] →
          (i, std_string_n buf len) ∈
            invocations (c.process_ udp buf len remote_ip remote_port w).2 := by
  refine ⟨fun mode text act => matches_filter_of_empty _ text rfl, ?_⟩
  intro c buf len remote_ip remote_port w i t hi ht
  unfold UdpserverComponent.process_
  rw [process_triggers_invocations, List.mem_map]
  refine ⟨(i, t), ?_, rfl⟩
  rw [List.mem_filter]
  exact ⟨List.mk_mem_enum_iff_getElem?.mpr hi, matches_filter_of_empty t _ ht⟩

/-- C19 at concrete inputs: a trigger with mode "equals" and the empty pattern, registered
first, is invoked for the packet "hello". -/
theorem empty_pattern_matches_everything_witness :
    ((UdpserverComponent.default.add_string_trigger unfiltered_trigger).string_triggers_[0]? =
        some unfiltered_trigger ∧ unfiltered_trigger.text_filter_ = []) ∧
    (0, std_string_n (ascii "hello") 5) ∈
      invocations ((UdpserverComponent.default.add_string_trigger unfiltered_trigger).process_
        sim_udp (ascii "hello") 5 (ascii "10.0.0.7") 5000 (sim_world [])).2 :=
  ⟨⟨rfl, rfl⟩,
    (empty_pattern_matches_everything sim_udp).2
      (UdpserverComponent.default.add_string_trigger unfiltered_trigger) (ascii "hello") 5
      (ascii "10.0.0.7") 5000 (sim_world []) 0 unfiltered_trigger rfl rfl⟩

/-! ## Truncation -/

theorem fill_buffer_val (l : List Byte) (h : l.length = MAX_PACKET_SIZE) :
    (fill_buffer l).val = l := by
  unfold fill_buffer
  simp only
  rw [← h, List.take_left]

theorem loop_receive_truncates {ω : Type} (udp : WiFiUDP ω) (c : UdpserverComponent) (w1 : ω)
    (datagram : List Byte)
    (hsize : (udp.parsePacket w1).1 = (datagram.length : Int))
    (hbig : MAX_PACKET_SIZE < datagram.length)
    (hlen : (udp.read MAX_PACKET_SIZE (udp.parsePacket w1).2).1.1 = (MAX_PACKET_SIZE : Int))
    (hdata : (udp.read MAX_PACKET_SIZE (udp.parsePacket w1).2).1.2.val =
      datagram.take MAX_PACKET_SIZE)
    (hallowed : c.is_ip_allowed (snprintf_ip 16
      (udp.remoteIP (udp.read MAX_PACKET_SIZE (udp.parsePacket w1).2).2)) = true) :
    (c.loop_receive udp w1).log =
      Call.parsePacket datagram.length ::
        Call.read MAX_PACKET_SIZE MAX_PACKET_SIZE (datagram.take MAX_PACKET_SIZE) ::
        Call.store MAX_PACKET_SIZE ::
        Call.is_ip_allowed (snprintf_ip 16
          (udp.remoteIP (udp.read MAX_PACKET_SIZE (udp.parsePacket w1).2).2)) true ::
        (c.process_ udp (datagram.take MAX_PACKET_SIZE) MAX_PACKET_SIZE
          (snprintf_ip 16 (udp.remoteIP (udp.read MAX_PACKET_SIZE (udp.parsePacket w1).2).2))
          (udp.remotePort (udp.read MAX_PACKET_SIZE (udp.parsePacket w1).2).2)
          (udp.read MAX_PACKET_SIZE (udp.parsePacket w1).2).2).2 := by
  have hp : (udp.parsePacket w1).1 > 0 := by rw [hsize]; omega
  have hmin : min (udp.parsePacket w1).1.toNat MAX_PACKET_SIZE = MAX_PACKET_SIZE := by
    rw [hsize, Int.toNat_ofNat]; omega
  have hpos : (udp.read MAX_PACKET_SIZE (udp.parsePacket w1).2).1.1 > 0 := by
    rw [hlen]; decide
  have hset : (datagram.take MAX_PACKET_SIZE).set MAX_PACKET_SIZE 0 =
      datagram.take MAX_PACKET_SIZE :=
    List.set_eq_of_length_le (List.length_take_le _ _)
  unfold UdpserverComponent.loop_receive
  simp only
  rw [if_pos hp, requested_eq_min, hmin, if_pos hpos, if_pos hallowed]
  simp only [LoopResult.log, hlen, hdata, hsize, Int.toNat_ofNat, hset, List.cons_append,
    List.nil_append]

theorem invocations_received_prefix (earlier : List Call) (p : Int) (n : Nat) (len : Int)
    (buf : List Byte) (k : Nat) (ip : CString) (ok : Bool) (dispatch : List Call)
    (h : ∀ e ∈ earlier, e.is_trigger = false) :
    invocations (earlier ++ Call.parsePacket p :: Call.read n len buf :: Call.store k ::
      Call.is_ip_allowed ip ok :: dispatch) = invocations dispatch := by
  have h0 : invocations earlier = [] := by
    unfold invocations
    rw [List.filterMap_eq_nil_iff]
    intro e he
    have := h e he
    cases e <;> simp_all [Call.is_trigger]
  rw [invocations_append, h0]
  rfl

/-- C9: for every pending datagram whose reported size exceeds `MAX_PACKET_SIZE` and whose
source address is allowed, when `read` delivers the bytes requested, `loop` (in a call that
starts bound, or that binds first) asks for `MAX_PACKET_SIZE` bytes and calls `process_`
with the first `MAX_PACKET_SIZE` bytes of the datagram: the text handed to the triggers is
exactly these 1400 bytes, every trigger whose filter accepts it is invoked with it, and the
packet is not dropped. -/
theorem loop_truncates_oversized {ω : Type} (is_connected : ω → Bool) (udp : WiFiUDP ω)
    (c : UdpserverComponent) (w w1 : ω) (datagram : List Byte)
    (hentry : (c.udp_initialized_ = true ∧ w1 = w) ∨
      (c.udp_initialized_ = false ∧ is_connected w = true ∧ udp.begin c.port_ w = (true, w1)))
    (hsize : (udp.parsePacket w1).1 = (datagram.length : Int))
    (hbig : MAX_PACKET_SIZE < datagram.length)
    (hlen : (udp.read MAX_PACKET_SIZE (udp.parsePacket w1).2).1.1 = (MAX_PACKET_SIZE : Int))
    (hdata : (udp.read MAX_PACKET_SIZE (udp.parsePacket w1).2).1.2.val =
      datagram.take MAX_PACKET_SIZE)
    (hallowed : c.is_ip_allowed (snprintf_ip 16
      (udp.remoteIP (udp.read MAX_PACKET_SIZE (udp.parsePacket w1).2).2)) = true) :
    (c.loop is_connected udp w).log =
        (if c.udp_initialized_ = true then []
          else [Call.is_connected true, Call.begin c.port_ true]) ++
        Call.parsePacket datagram.length ::
          Call.read MAX_PACKET_SIZE MAX_PACKET_SIZE (datagram.take MAX_PACKET_SIZE) ::
          Call.store MAX_PACKET_SIZE ::
          Call.is_ip_allowed (snprintf_ip 16
            (udp.remoteIP (udp.read MAX_PACKET_SIZE (udp.parsePacket w1).2).2)) true ::
          (c.process_ udp (datagram.take MAX_PACKET_SIZE) MAX_PACKET_SIZE
            (snprintf_ip 16 (udp.remoteIP (udp.read MAX_PACKET_SIZE (udp.parsePacket w1).2).2))
            (udp.remotePort (udp.read MAX_PACKET_SIZE (udp.parsePacket w1).2).2)
            (udp.read MAX_PACKET_SIZE (udp.parsePacket w1).2).2).2 ∧
      std_string_n (datagram.take MAX_PACKET_SIZE) MAX_PACKET_SIZE =
        datagram.take MAX_PACKET_SIZE ∧
      (datagram.take MAX_PACKET_SIZE).length = MAX_PACKET_SIZE ∧
      invocations (c.loop is_connected udp w).log =
        ((c.string_triggers_.enum).filter
          (fun p => p.2.matches_filter (datagram.take MAX_PACKET_SIZE))).map
          (fun p => (p.1, datagram.take MAX_PACKET_SIZE)) := by
  have htext : std_string_n (datagram.take MAX_PACKET_SIZE) MAX_PACKET_SIZE =
      datagram.take MAX_PACKET_SIZE := by
    unfold std_string_n
    rw [List.take_take, Nat.min_self]
  have hlength : (datagram.take MAX_PACKET_SIZE).length = MAX_PACKET_SIZE := by
    rw [List.length_take]; omega
  have hlog : (c.loop is_connected udp w).log =
      (if c.udp_initialized_ = true then []
        else [Call.is_connected true, Call.begin c.port_ true]) ++
      Call.parsePacket datagram.length ::
        Call.read MAX_PACKET_SIZE MAX_PACKET_SIZE (datagram.take MAX_PACKET_SIZE) ::
        Call.store MAX_PACKET_SIZE ::
        Call.is_ip_allowed (snprintf_ip 16
          (udp.remoteIP (udp.read MAX_PACKET_SIZE (udp.parsePacket w1).2).2)) true ::
        (c.process_ udp (datagram.take MAX_PACKET_SIZE) MAX_PACKET_SIZE
          (snprintf_ip 16 (udp.remoteIP (udp.read MAX_PACKET_SIZE (udp.parsePacket w1).2).2))
          (udp.remotePort (udp.read MAX_PACKET_SIZE (udp.parsePacket w1).2).2)
          (udp.read MAX_PACKET_SIZE (udp.parsePacket w1).2).2).2 := by
    rcases hentry with ⟨hc, rfl⟩ | ⟨hc, hn, hb⟩
    · rw [loop_of_bound is_connected udp c w1 hc, if_pos hc, List.nil_append]
      exact loop_receive_truncates udp c w1 datagram hsize hbig hlen hdata hallowed
    · have hb1 : (udp.begin c.port_ w).1 = true := by rw [hb]
      have hb2 : (udp.begin c.port_ w).2 = w1 := by rw [hb]
      rw [loop_of_bind_ok is_connected udp c w hc hn hb1, log_after, hb2,
        if_neg (by simp [hc])]
      congr 1
      exact loop_receive_truncates udp { c with udp_initialized_ := true } w1 datagram hsize
        hbig hlen hdata hallowed
  refine ⟨hlog, htext, hlength, ?_⟩
  rw [hlog, invocations_received_prefix]
  · unfold UdpserverComponent.process_
    rw [process_triggers_invocations, htext]
    rfl
  · intro e he
    split_ifs at he
    · cases he
    · simp only [List.mem_cons, List.mem_singleton, List.not_mem_nil, or_false] at he
      rcases he with rfl | rfl <;> rfl

set_option maxRecDepth 100000 in
/-- C9 at concrete inputs: the default component with one trigger, not yet bound, and a
pending datagram of 1401 bytes from `10.0.0.5`; the call binds, reads 1400 bytes and hands
the first 1400 bytes of the datagram to the trigger. -/
theorem loop_truncates_oversized_witness :
    (((open_component.udp_initialized_ = true ∧ oversized_world = oversized_world) ∨
        (open_component.udp_initialized_ = false ∧ sim_is_connected oversized_world = true ∧
          sim_udp.begin open_component.port_ oversized_world = (true, oversized_world))) ∧
      (sim_udp.parsePacket oversized_world).1 = (oversized_payload.length : Int) ∧
      MAX_PACKET_SIZE < oversized_payload.length ∧
      (sim_udp.read MAX_PACKET_SIZE (sim_udp.parsePacket oversized_world).2).1.1 = (MAX_PACKET_SIZE : Int) ∧
      (sim_udp.read MAX_PACKET_SIZE (sim_udp.parsePacket oversized_world).2).1.2.val = oversized_payload.take MAX_PACKET_SIZE ∧
      open_component.is_ip_allowed (snprintf_ip 16 (sim_udp.remoteIP (sim_udp.read MAX_PACKET_SIZE (sim_udp.parsePacket oversized_world).2).2)) = true) ∧
    ((open_component.loop sim_is_connected sim_udp oversized_world).log =
        (if open_component.udp_initialized_ = true then []
          else [Call.is_connected true, Call.begin open_component.port_ true]) ++
        Call.parsePacket oversized_payload.length ::
          Call.read MAX_PACKET_SIZE MAX_PACKET_SIZE (oversized_payload.take MAX_PACKET_SIZE) ::
          Call.store MAX_PACKET_SIZE ::
          Call.is_ip_allowed (snprintf_ip 16 (sim_udp.remoteIP (sim_udp.read MAX_PACKET_SIZE (sim_udp.parsePacket oversized_world).2).2)) true ::
          (open_component.process_ sim_udp (oversized_payload.take MAX_PACKET_SIZE)
            MAX_PACKET_SIZE (snprintf_ip 16 (sim_udp.remoteIP (sim_udp.read MAX_PACKET_SIZE (sim_udp.parsePacket oversized_world).2).2))
            (sim_udp.remotePort (sim_udp.read MAX_PACKET_SIZE (sim_udp.parsePacket oversized_world).2).2) (sim_udp.read MAX_PACKET_SIZE (sim_udp.parsePacket oversized_world).2).2).2 ∧
      std_string_n (oversized_payload.take MAX_PACKET_SIZE) MAX_PACKET_SIZE =
        oversized_payload.take MAX_PACKET_SIZE ∧
      (oversized_payload.take MAX_PACKET_SIZE).length = MAX_PACKET_SIZE ∧
      invocations (open_component.loop sim_is_connected sim_udp oversized_world).log =
        ((open_component.string_triggers_.enum).filter
          (fun p => p.2.matches_filter (oversized_payload.take MAX_PACKET_SIZE))).map
          (fun p => (p.1, oversized_payload.take MAX_PACKET_SIZE))) :=
  ⟨⟨Or.inr ⟨rfl, rfl, rfl⟩, by decide, by decide, by decide,
      fill_buffer_val (oversized_payload.take MAX_PACKET_SIZE) (by decide), by decide⟩,
    loop_truncates_oversized sim_is_connected sim_udp open_component oversized_world
      oversized_world oversized_payload (Or.inr ⟨rfl, rfl, rfl⟩) (by decide) (by decide)
      (by decide) (fill_buffer_val (oversized_payload.take MAX_PACKET_SIZE) (by decide))
      (by decide)⟩

end udpserver
end esphome
